import Mathlib

/-!
# Verification of the travel-assistant core (`app.py`)

Shallow embedding of the extraction pipeline and the watch/diff engine of
the WhatsApp travel assistant.  Python values that flow out of `json.loads`
(and into `json.dumps`) are modelled by the inductive family `JVal`
(`JVal.null` is Python's `None`); Python strings are modelled by Lean
`String` / `List Char`.  Machine-level caveats are noted at each definition.
-/

mutual

/-- Python values after `json.loads`: `null`/`None`, booleans, integers,
strings, lists and dicts.  Dicts are association lists in insertion order;
lookup takes the first binding, as keys of a parsed JSON object are unique.
(Float literals are not modelled; none of the verified paths produce or
consume them.) -/
inductive JVal where
  | null : JVal
  | bool : Bool → JVal
  | num : Int → JVal
  | str : String → JVal
  | arr : JList → JVal
  | obj : JMembers → JVal

/-- Python lists of `JVal`s (a separate inductive so that all recursion over
`JVal` stays structural). -/
inductive JList where
  | nil : JList
  | cons : JVal → JList → JList

/-- Python dicts as insertion-ordered association lists. -/
inductive JMembers where
  | nil : JMembers
  | cons : String → JVal → JMembers → JMembers

end

/-- `d.get(k)` on a dict: the first binding of `k`, or Python `None`
(= `JVal.null`) when absent. -/
def JMembers.get : JMembers → String → JVal
  | .nil, _ => .null
  | .cons k v t, key => if k = key then v else t.get key

/-- `d.get(k, default)` on a dict. -/
def JMembers.getD : JMembers → String → JVal → JVal
  | .nil, _, dflt => dflt
  | .cons k v t, key, dflt => if k = key then v else t.getD key dflt

/-- `k in d` on a dict. -/
def JMembers.hasKey : JMembers → String → Bool
  | .nil, _ => false
  | .cons k _ t, key => k = key || t.hasKey key

/-- `d[k] = v` on a dict: overwrite the first binding of `k`, or append a new
binding at the end (Python dict insertion order). -/
def JMembers.set : JMembers → String → JVal → JMembers
  | .nil, key, v => .cons key v .nil
  | .cons k w t, key, v => if k = key then .cons k v t else .cons k w (t.set key v)

/-- Python truthiness of a `JVal` (`bool(x)`). -/
def JVal.pyTruthy : JVal → Bool
  | .null => false
  | .bool b => b
  | .num n => n ≠ 0
  | .str s => s ≠ ""
  | .arr .nil => false
  | .arr (.cons _ _) => true
  | .obj .nil => false
  | .obj (.cons _ _ _) => true

/-- The nested helper `safe(*keys, default=None)` of
`_fw_snapshot_from_aviationstack` (app.py:733-738): walk the key path,
returning `None` as soon as the current value is not a dict; a missing key
yields `None` via `dict.get`. -/
def jsafe : JVal → List String → JVal
  | cur, [] => cur
  | .obj ms, k :: ks => jsafe (ms.get k) ks
  | _, _ :: _ => .null

/-- The canonical flight snapshot built by `_fw_snapshot_from_aviationstack`
(app.py:732-744): a Python dict with the fixed keys
`status, airline, flight{iata,icao,number}, departure{...}, arrival{...}`,
here as a record.  Every field holds the raw `safe(...)` projection, which is
`JVal.null` when the provider omitted the field. -/
structure FwSnapshot where
  status : JVal
  airline : JVal
  flightIata : JVal
  flightIcao : JVal
  flightNumber : JVal
  depAirport : JVal
  depScheduled : JVal
  depEstimated : JVal
  depActual : JVal
  depTerminal : JVal
  depGate : JVal
  arrAirport : JVal
  arrScheduled : JVal
  arrEstimated : JVal
  arrActual : JVal
  arrTerminal : JVal
  arrGate : JVal
  arrBaggage : JVal

/-- `_fw_snapshot_from_aviationstack(rec)` (app.py:732-744). -/
def fwSnapshotFromAviationstack (rec : JVal) : FwSnapshot :=
  { status := jsafe rec ["flight_status"]
    airline := jsafe rec ["airline", "name"]
    flightIata := jsafe rec ["flight", "iata"]
    flightIcao := jsafe rec ["flight", "icao"]
    flightNumber := jsafe rec ["flight", "number"]
    depAirport := jsafe rec ["departure", "airport"]
    depScheduled := jsafe rec ["departure", "scheduled"]
    depEstimated := jsafe rec ["departure", "estimated"]
    depActual := jsafe rec ["departure", "actual"]
    depTerminal := jsafe rec ["departure", "terminal"]
    depGate := jsafe rec ["departure", "gate"]
    arrAirport := jsafe rec ["arrival", "airport"]
    arrScheduled := jsafe rec ["arrival", "scheduled"]
    arrEstimated := jsafe rec ["arrival", "estimated"]
    arrActual := jsafe rec ["arrival", "actual"]
    arrTerminal := jsafe rec ["arrival", "terminal"]
    arrGate := jsafe rec ["arrival", "gate"]
    arrBaggage := jsafe rec ["arrival", "baggage"] }

/-! ## `json.dumps` (the serializer under `_fw_snapshot_hash`)

`_fw_snapshot_hash` (app.py:746-747) serializes the snapshot with
`json.dumps(snap, sort_keys=True)` (so `ensure_ascii=True`, separators
`", "` / `": "`); the watch update (app.py:1364-1365) stores
`json.dumps(snap, ensure_ascii=False)` (insertion order).  Both are modelled
below, on `List Char`. -/

/-- One lowercase hex digit, as produced by Python's `'\u%04x'`
(`48 = '0'`, `87 + 10 = 'a'`). -/
def hexDig (n : Nat) : Char :=
  if n < 10 then Char.ofNat (48 + n) else Char.ofNat (87 + min n 15)

/-- Four lowercase hex digits (`'%04x' % n` for `n < 0x10000`). -/
def hex4 (n : Nat) : List Char :=
  [hexDig (n / 4096 % 16), hexDig (n / 256 % 16), hexDig (n / 16 % 16), hexDig (n % 16)]

/-- JSON string escaping of one character, following CPython's
`json.encoder.py_encode_basestring_ascii` (for `ascii = true`, the default
`ensure_ascii=True`) and `py_encode_basestring` (for `ascii = false`):
quote, backslash and the five named controls get two-character escapes, the
remaining controls get `\u00xx`, and with `ensure_ascii` every character
outside `0x20..0x7e` becomes `\uXXXX` (a surrogate pair above `0xFFFF`). -/
def escCharGen (ascii : Bool) (c : Char) : List Char :=
  if c = '"' then ['\\', '"']
  else if c = '\\' then ['\\', '\\']
  else if c.toNat = 8 then ['\\', 'b']
  else if c.toNat = 12 then ['\\', 'f']
  else if c.toNat = 10 then ['\\', 'n']
  else if c.toNat = 13 then ['\\', 'r']
  else if c.toNat = 9 then ['\\', 't']
  else if c.toNat < 0x20 then '\\' :: 'u' :: hex4 c.toNat
  else if ascii then
    if c.toNat ≤ 0x7e then [c]
    else if c.toNat < 0x10000 then '\\' :: 'u' :: hex4 c.toNat
    else
      ('\\' :: 'u' :: hex4 (0xd800 + (c.toNat - 0x10000) / 0x400)) ++
        ('\\' :: 'u' :: hex4 (0xdc00 + (c.toNat - 0x10000) % 0x400))
  else [c]

/-- JSON escaping of a character list. -/
def escListGen (ascii : Bool) : List Char → List Char
  | [] => []
  | c :: t => escCharGen ascii c ++ escListGen ascii t

/-- A JSON string literal: `'"' + escaped + '"'`. -/
def strDumpChars (ascii : Bool) (s : String) : List Char :=
  '"' :: escListGen ascii s.data ++ ['"']

/-- Python string `<=` (code-point lexicographic), used by `sort_keys`. -/
def pyStrLe (a b : List Char) : Bool :=
  match a, b with
  | [], _ => true
  | _ :: _, [] => false
  | x :: xs, y :: ys =>
    if x.toNat < y.toNat then true
    else if y.toNat < x.toNat then false
    else pyStrLe xs ys

/-- Stable insertion of a rendered member into a key-sorted list. -/
def insertRendered (p : String × List Char) :
    List (String × List Char) → List (String × List Char)
  | [] => [p]
  | q :: t => if pyStrLe p.1.data q.1.data then p :: q :: t else q :: insertRendered p t

/-- Stable insertion sort of rendered members by key (`sorted` is stable and
compares keys with `<`). -/
def sortRendered : List (String × List Char) → List (String × List Char)
  | [] => []
  | p :: t => insertRendered p (sortRendered t)

/-- Join with `", "` (the default item separator of `json.dumps`). -/
def joinComma : List (List Char) → List Char
  | [] => []
  | [x] => x
  | x :: y :: t => x ++ ',' :: ' ' :: joinComma (y :: t)

mutual

/-- `json.dumps` of a Python value: `sorted` selects `sort_keys=True`,
`ascii` selects `ensure_ascii`.  Integers print as their decimal form,
object members are rendered and then (for `sort_keys`) stably sorted by raw
key. -/
def jdumpChars (ascii sorted : Bool) : JVal → List Char
  | .null => ['n', 'u', 'l', 'l']
  | .bool b => if b then ['t', 'r', 'u', 'e'] else ['f', 'a', 'l', 's', 'e']
  | .num n => (toString n).data
  | .str s => strDumpChars ascii s
  | .arr items => '[' :: joinComma (jdumpList ascii sorted items) ++ [']']
  | .obj ms =>
    let rendered := jdumpMembers ascii sorted ms
    let ordered := if sorted then sortRendered rendered else rendered
    '\x7b' :: joinComma (ordered.map fun p =>
      strDumpChars ascii p.1 ++ ':' :: ' ' :: p.2) ++ ['\x7d']

/-- Renders each element of a list. -/
def jdumpList (ascii sorted : Bool) : JList → List (List Char)
  | .nil => []
  | .cons v t => jdumpChars ascii sorted v :: jdumpList ascii sorted t

/-- Renders each member's value, keeping the raw key for sorting. -/
def jdumpMembers (ascii sorted : Bool) : JMembers → List (String × List Char)
  | .nil => []
  | .cons k v t => (k, jdumpChars ascii sorted v) :: jdumpMembers ascii sorted t

end

/-- `json.dumps(snap, sort_keys=True)` for the snapshot dict of
`_fw_snapshot_from_aviationstack`.  The dict's keys are fixed, so the
sorted-key serialization is this fixed template (keys in code-point order:
`airline < arrival < departure < flight < status`, and alphabetically inside
the nested dicts); each value is serialized by `jdumpChars` with
`ensure_ascii=True, sort_keys=True`. -/
def fwSnapshotSortedDumpChars (s : FwSnapshot) : List Char :=
  "\x7b\"airline\": ".data ++ jdumpChars true true s.airline ++
    ", \"arrival\": \x7b\"actual\": ".data ++ jdumpChars true true s.arrActual ++
    ", \"airport\": ".data ++ jdumpChars true true s.arrAirport ++
    ", \"baggage\": ".data ++ jdumpChars true true s.arrBaggage ++
    ", \"estimated\": ".data ++ jdumpChars true true s.arrEstimated ++
    ", \"gate\": ".data ++ jdumpChars true true s.arrGate ++
    ", \"scheduled\": ".data ++ jdumpChars true true s.arrScheduled ++
    ", \"terminal\": ".data ++ jdumpChars true true s.arrTerminal ++
    "\x7d, \"departure\": \x7b\"actual\": ".data ++ jdumpChars true true s.depActual ++
    ", \"airport\": ".data ++ jdumpChars true true s.depAirport ++
    ", \"estimated\": ".data ++ jdumpChars true true s.depEstimated ++
    ", \"gate\": ".data ++ jdumpChars true true s.depGate ++
    ", \"scheduled\": ".data ++ jdumpChars true true s.depScheduled ++
    ", \"terminal\": ".data ++ jdumpChars true true s.depTerminal ++
    "\x7d, \"flight\": \x7b\"iata\": ".data ++ jdumpChars true true s.flightIata ++
    ", \"icao\": ".data ++ jdumpChars true true s.flightIcao ++
    ", \"number\": ".data ++ jdumpChars true true s.flightNumber ++
    "\x7d, \"status\": ".data ++ jdumpChars true true s.status ++ "\x7d".data

/-- `json.dumps(snap, ensure_ascii=False)` (app.py:1365): the snapshot as
stored in `flight_watch.last_snapshot` — insertion-order keys, non-ASCII
characters kept literal. -/
def fwSnapshotStoreDump (s : FwSnapshot) : String :=
  String.mk ("\x7b\"status\": ".data ++ jdumpChars false false s.status ++
    ", \"airline\": ".data ++ jdumpChars false false s.airline ++
    ", \"flight\": \x7b\"iata\": ".data ++ jdumpChars false false s.flightIata ++
    ", \"icao\": ".data ++ jdumpChars false false s.flightIcao ++
    ", \"number\": ".data ++ jdumpChars false false s.flightNumber ++
    "\x7d, \"departure\": \x7b\"airport\": ".data ++ jdumpChars false false s.depAirport ++
    ", \"scheduled\": ".data ++ jdumpChars false false s.depScheduled ++
    ", \"estimated\": ".data ++ jdumpChars false false s.depEstimated ++
    ", \"actual\": ".data ++ jdumpChars false false s.depActual ++
    ", \"terminal\": ".data ++ jdumpChars false false s.depTerminal ++
    ", \"gate\": ".data ++ jdumpChars false false s.depGate ++
    "\x7d, \"arrival\": \x7b\"airport\": ".data ++ jdumpChars false false s.arrAirport ++
    ", \"scheduled\": ".data ++ jdumpChars false false s.arrScheduled ++
    ", \"estimated\": ".data ++ jdumpChars false false s.arrEstimated ++
    ", \"actual\": ".data ++ jdumpChars false false s.arrActual ++
    ", \"terminal\": ".data ++ jdumpChars false false s.arrTerminal ++
    ", \"gate\": ".data ++ jdumpChars false false s.arrGate ++
    ", \"baggage\": ".data ++ jdumpChars false false s.arrBaggage ++ "\x7d\x7d".data)

/-- Modelled from the spec: `_fw_snapshot_hash` (app.py:746-747) is
`hashlib.sha256(json.dumps(snap, sort_keys=True).encode("utf-8")).hexdigest()`.
`hashlib.sha256` is a Python standard-library primitive, not part of this
repository's sources; the spec's contract for it is a *deterministic* digest
with *stable key ordering* that distinguishes distinct snapshots
("two snapshots differing only in `gate` must hash differently"), i.e. a
deterministic injective digest.  It is therefore modelled as the identity on
the canonically serialized snapshot; the serialization itself
(`json.dumps(snap, sort_keys=True)`) is modelled faithfully above. -/
def fwSnapshotHash (s : FwSnapshot) : String :=
  String.mk (fwSnapshotSortedDumpChars s)

/-! ## Watch engine: fetcher and cron pass -/

/-- Outcome of `requests.get(AVIATIONSTACK_URL, ...)` plus `r.json()`:
either the transport layer raised, or a response arrived with a status code,
a body text, and the body's JSON parse (`none` when `r.json()` raises). -/
inductive HttpOutcome where
  | exn : String → HttpOutcome
  | resp : Nat → String → Option JVal → HttpOutcome

/-- What `_fw_fetch_aviationstack` hands back on its normal return paths:
a dict with an `error` key, or a dict with a `data` key (the raw value of the
provider's `data` member — `data.get("data", [])`). -/
inductive FetchResult where
  | ferror : String → FetchResult
  | fdata : JVal → FetchResult

/-- `_fw_fetch_aviationstack(flight_iata, flight_date)` (app.py:760-769),
as a function of the configured access key and the HTTP outcome.
`Except.error` models an exception escaping the function: the call
`requests.get` is *not* inside a `try`, so a transport exception propagates,
and `data.get` on a non-dict 200 body raises `AttributeError` (the `try`
covers only `data = r.json()`). -/
def fwFetchAviationstack (key : String) (http : HttpOutcome) :
    Except String FetchResult :=
  if key = "" then .ok (.ferror "Missing AVIATIONSTACK_KEY")
  else
    match http with
    | .exn m => .error m
    | .resp st _body js =>
      if st ≠ 200 then .ok (.ferror ("aviationstack HTTP " ++ toString st))
      else
        match js with
        | none => .ok (.ferror "aviationstack JSON parse")
        | some (.obj ms) => .ok (.fdata (ms.getD "data" (.arr .nil)))
        | some _ => .error "AttributeError: no attribute get"

/-- Python `str.strip()` whitespace (the common ASCII set; exotic Unicode
space characters are not modelled). -/
def isPySpace (c : Char) : Bool :=
  c = ' ' || c = '\t' || c = '\n' || c = '\x0d' || c = '\x0b' || c = '\x0c'

/-- `s.strip()` on a character list. -/
def pyStripChars (cs : List Char) : List Char :=
  ((cs.dropWhile isPySpace).reverse.dropWhile isPySpace).reverse

/-- `s.lstrip("+")`. -/
def lstripPlus : List Char → List Char
  | '+' :: t => lstripPlus t
  | cs => cs

/-- `normalize_waid` (app.py:178-185): strip, drop one leading `whatsapp:`,
drop leading `+`s.  The falsy guard returns empty input unchanged. -/
def normalizeWaid (s : String) : String :=
  if s = "" then s
  else
    let t := pyStripChars s.data
    let t := if "whatsapp:".data.isPrefixOf t then t.drop 9 else t
    String.mk (lstripPlus t)

/-- `x.replace("whatsapp:", "")`: remove every occurrence, scanning left to
right (specialized to this fixed pattern so the recursion is structural). -/
def removeWhatsappAll : List Char → List Char
  | 'w' :: 'h' :: 'a' :: 't' :: 's' :: 'a' :: 'p' :: 'p' :: ':' :: t => removeWhatsappAll t
  | c :: t => c :: removeWhatsappAll t
  | [] => []

/-- `NOTIFY_CC_WAIDS` (app.py:61): split the environment value on `","`,
strip each piece, keep the non-empty ones. -/
def parseNotifyCc (env : String) : List String :=
  ((env.data.splitOn ',').map fun cs => String.mk (pyStripChars cs)).filter (· ≠ "")

/-- The normalization applied to each broadcast address in the cron loop
(app.py:1361): `normalize_waid(x.replace("whatsapp:", "").lstrip("+"))`. -/
def ccNormalize (x : String) : String :=
  normalizeWaid (String.mk (lstripPlus (removeWhatsappAll x.data)))

/-- One `flight_watch` row (app.py:299-309).  The generated `id` and
`created_at` play no role in the verified claims and are omitted; `provider`
is the constant `aviationstack`. -/
structure FwRow where
  waid : String
  flightIata : String
  flightDate : Option String
  lastSnapshot : Option String
  lastHash : Option String
  updatedAt : String

/-- The snapshot/hash/compare/notify part of the cron loop body
(app.py:1355-1367) for the authoritative record `d = data[0]`: the row after
the iteration (the re-read of `last_hash` by id on app.py:1357 sees the
row's stored hash in a sequential pass), the notification recipients, and
the `(updated, errors)` increments. -/
def cronDiff (cc : List String) (now : String) (row : FwRow) (d : JVal) :
    FwRow × List String × Nat × Nat :=
  let snap := fwSnapshotFromAviationstack d
  let sHash := fwSnapshotHash snap
  -- `s_hash != prev_hash` on app.py:1359: `prev_hash` is the stored hash
  -- or SQL NULL (Python `None`), compared at the option level.
  let changed : Bool := row.lastHash != some sHash
  if changed then
    ({ row with lastSnapshot := some (fwSnapshotStoreDump snap),
                lastHash := some sHash, updatedAt := now },
      row.waid :: ((cc.filter fun x => x ≠ "").map ccNormalize), 1, 0)
  else (row, [], 0, 0)

/-- The body of the `for r in rows` loop of `cron_flightwatch`
(app.py:1345-1370) for one subscription, as a function of the fetch outcome
(`Except.error` = the fetch raised; caught by the loop's `except`).
Returns the row after the iteration, the list of notification recipients (in
send order: owner first, then the broadcast list — one `send_whatsapp` each,
all carrying the same formatted message), and the increments of the
`updated` and `errors` counters. -/
def cronStep (cc : List String) (now : String) (row : FwRow)
    (fetchRes : Except String FetchResult) :
    FwRow × List String × Nat × Nat :=
  match fetchRes with
  | .error _ => (row, [], 0, 1)
  | .ok (.ferror _) => (row, [], 0, 1)
  | .ok (.fdata v) =>
    -- `data = res.get("data") or []` then `if not data: continue` (app.py:1352-1354)
    if !v.pyTruthy then (row, [], 0, 0)
    else
      match v with
      | .arr (.cons d _) => cronDiff cc now row d
      | .str s =>
        -- `data[0]` on a string is its first character (a one-character string)
        match s.data with
        | c :: _ => cronDiff cc now row (.str (String.mk [c]))
        | [] => (row, [], 0, 0)
      | _ =>
        -- `data[0]` on a truthy dict/number/bool raises; the loop's
        -- `except` counts it as an error
        (row, [], 0, 1)

/-- `cron_flightwatch` (app.py:1339-1371) over the registry rows (already in
`ORDER BY id DESC` order), each paired with its fetch outcome: the rows after
the pass, the concatenated notification recipients, and the final
`(updated, errors)` counters. -/
def cronFlightwatch (cc : List String) (now : String) :
    List (FwRow × Except String FetchResult) → List FwRow × List String × Nat × Nat
  | [] => ([], [], 0, 0)
  | (row, res) :: t =>
    let s := cronStep cc now row res
    let r := cronFlightwatch cc now t
    (s.1 :: r.1, s.2.1 ++ r.2.1, s.2.2.1 + r.2.2.1, s.2.2.2 + r.2.2.2)

/-! ## Heuristic extractor (app.py:368-418)

The regexes `DATE_PATTERNS`, `TIME_RGX` and `\b[A-Z]{3}\b` are compiled to
specialized scanners with `re.finditer` semantics: try a match at each
position from the left, and continue after the end of a successful match
(non-overlapping).  `\d` is modelled as the ASCII digits and `\w` (for `\b`)
as ASCII alphanumerics, `_`, and any non-ASCII character — Python's Unicode
classes agree with this on every character class that occurs in the
application's inputs (Hebrew letters are word characters). -/

/-- `\w` for word-boundary tests (see section comment for the non-ASCII
approximation). -/
def isWordChar (c : Char) : Bool :=
  c.isAlphanum || c = '_' || 0x80 ≤ c.toNat

/-- The separator class `[. / -]` of `DATE_PATTERNS`. -/
def isDateSep (c : Char) : Bool :=
  c = '-' || c = '/' || c = '.'

/-- Numeric value of an ASCII digit. -/
def digitVal (c : Char) : Nat := c.toNat - 48

/-- `(\d{1,2})[. / -]`: greedily two digits followed by a separator, else one
digit followed by a separator (regex backtracking; the two alternatives are
mutually exclusive on any text).  Returns the group value and the characters
after the separator. -/
def twoOrOneDigitsSep : List Char → Option (Nat × List Char)
  | e :: f :: s :: r =>
    if e.isDigit && f.isDigit && isDateSep s then some (digitVal e * 10 + digitVal f, r)
    else if e.isDigit && isDateSep f then some (digitVal e, s :: r)
    else none
  | [e, f] => if e.isDigit && isDateSep f then some (digitVal e, []) else none
  | _ => none

/-- A final `(\d{1,2})`: greedily two digits, else one. -/
def twoOrOneDigitsEnd : List Char → Option (Nat × List Char)
  | e :: f :: r =>
    if e.isDigit && f.isDigit then some (digitVal e * 10 + digitVal f, r)
    else if e.isDigit then some (digitVal e, f :: r)
    else none
  | [e] => if e.isDigit then some (digitVal e, []) else none
  | [] => none

/-- One attempt of `(\d{4})[. / -](\d{1,2})[. / -](\d{1,2})` at the head of the
text: `(year, month, day)` and the rest after the match. -/
def matchDateYmdAt (cs : List Char) : Option ((Nat × Nat × Nat) × List Char) :=
  match cs with
  | a :: b :: c :: d :: s1 :: r =>
    if a.isDigit && b.isDigit && c.isDigit && d.isDigit && isDateSep s1 then
      let y := ((digitVal a * 10 + digitVal b) * 10 + digitVal c) * 10 + digitVal d
      match twoOrOneDigitsSep r with
      | some (mo, r2) =>
        match twoOrOneDigitsEnd r2 with
        | some (dd, r3) => some ((y, mo, dd), r3)
        | none => none
      | none => none
    else none
  | _ => none

/-- One attempt of `(\d{1,2})[. / -](\d{1,2})[. / -](\d{4})` at the head of the
text: `(day, month, year)` and the rest after the match. -/
def matchDateDmyAt (cs : List Char) : Option ((Nat × Nat × Nat) × List Char) :=
  match twoOrOneDigitsSep cs with
  | some (dd, r1) =>
    match twoOrOneDigitsSep r1 with
    | some (mo, r2) =>
      match r2 with
      | a :: b :: c :: d :: r3 =>
        if a.isDigit && b.isDigit && c.isDigit && d.isDigit then
          some ((dd, mo, ((digitVal a * 10 + digitVal b) * 10 + digitVal c) * 10 + digitVal d), r3)
        else none
      | _ => none
    | none => none
  | none => none

/-- `re.finditer` over a position-based matcher: fuel-indexed so that the
recursion is structural (the fuel is instantiated with the text length,
which always suffices since every step consumes at least one character). -/
def finditerDates (att : List Char → Option ((Nat × Nat × Nat) × List Char)) :
    Nat → List Char → List (Nat × Nat × Nat)
  | 0, _ => []
  | _ + 1, [] => []
  | fuel + 1, c :: t =>
    match att (c :: t) with
    | some (g, rest) => g :: finditerDates att fuel rest
    | none => finditerDates att fuel t

/-- Gregorian leap year (`datetime`'s calendar). -/
def isLeapYear (y : Nat) : Bool :=
  y % 4 = 0 && (y % 100 ≠ 0 || y % 400 = 0)

/-- Days in a month (`0` for an invalid month, rejecting it). -/
def daysInMonth (y mo : Nat) : Nat :=
  if mo = 1 || mo = 3 || mo = 5 || mo = 7 || mo = 8 || mo = 10 || mo = 12 then 31
  else if mo = 4 || mo = 6 || mo = 9 || mo = 11 then 30
  else if mo = 2 then (if isLeapYear y then 29 else 28)
  else 0

/-- Validity of `datetime(y, mo, d)`: `MINYEAR = 1 ≤ y` (a four-digit year is
at most `9999 = MAXYEAR`), a real month and a real day of that month. -/
def isValidDate (y mo d : Nat) : Bool :=
  1 ≤ y && 1 ≤ mo && mo ≤ 12 && 1 ≤ d && d ≤ daysInMonth y mo

/-- Zero-padded decimal of width 2. -/
def pad2 (n : Nat) : String :=
  if n < 10 then "0" ++ toString n else toString n

/-- Zero-padded decimal of width 4 (`%Y` as documented for `datetime`;
glibc prints years below 1000 unpadded, a platform quirk outside the model —
every four-digit year of interest is ≥ 1000 anyway). -/
def pad4 (n : Nat) : String :=
  if n < 10 then "000" ++ toString n
  else if n < 100 then "00" ++ toString n
  else if n < 1000 then "0" ++ toString n
  else toString n

/-- `datetime(y, mo, d).strftime("%Y-%m-%d")` guarded by the constructor's
validation: `none` models the `except: continue`. -/
def normalizedDate (y mo d : Nat) : Option String :=
  if isValidDate y mo d then some (pad4 y ++ "-" ++ pad2 mo ++ "-" ++ pad2 d) else none

/-- `dict.fromkeys`: de-duplicate keeping the first occurrence, preserving
order. -/
def dedupKeepFirst (seen : List String) : List String → List String
  | [] => []
  | x :: t =>
    if x ∈ seen then dedupKeepFirst seen t
    else x :: dedupKeepFirst (x :: seen) t

/-- The `out` list of `parse_dates` (app.py:382-394) before de-duplication:
all validated, normalized matches — the first pattern's matches over the
whole text, then the second pattern's. -/
def rawParsedDates (text : String) : List String :=
  (finditerDates matchDateYmdAt text.data.length text.data).filterMap
      (fun g => normalizedDate g.1 g.2.1 g.2.2) ++
    (finditerDates matchDateDmyAt text.data.length text.data).filterMap
      (fun g => normalizedDate g.2.2 g.2.1 g.1)

/-- `parse_dates(text)` (app.py:382-395). -/
def parseDates (text : String) : List String :=
  dedupKeepFirst [] (rawParsedDates text)

/-- One attempt of `(\d{1,2}):(\d{2})\b` (after the leading `\b` has been
checked by the scanner): hour group greedily two digits then one, a colon,
exactly two minute digits, and a trailing non-word boundary. -/
def matchTimeAt (cs : List Char) : Option ((Nat × Nat) × List Char) :=
  match cs with
  | a :: b :: ':' :: m1 :: m2 :: r =>
    if a.isDigit && b.isDigit && m1.isDigit && m2.isDigit &&
        (match r with | [] => true | x :: _ => !isWordChar x) then
      some ((digitVal a * 10 + digitVal b, digitVal m1 * 10 + digitVal m2), r)
    else
      none
  | a :: ':' :: m1 :: m2 :: r =>
    if a.isDigit && m1.isDigit && m2.isDigit &&
        (match r with | [] => true | x :: _ => !isWordChar x) then
      some ((digitVal a, digitVal m1 * 10 + digitVal m2), r)
    else none
  | _ => none

/-- `TIME_RGX.finditer`: `prevWord` tracks whether the previous character is
a word character (for the leading `\b`); after a match the previous character
is a digit, hence a word character. -/
def finditerTimes : Nat → Bool → List Char → List (Nat × Nat)
  | 0, _, _ => []
  | _ + 1, _, [] => []
  | fuel + 1, prevW, c :: t =>
    match (if prevW then none else matchTimeAt (c :: t)) with
    | some (hm, rest) => hm :: finditerTimes fuel true rest
    | none => finditerTimes fuel (isWordChar c) t

/-- `parse_times(text)` (app.py:397-403): matches with hour in `[0, 23]` and
minute in `[0, 59]`, zero-padded, de-duplicated keeping first occurrences. -/
def parseTimes (text : String) : List String :=
  dedupKeepFirst []
    ((finditerTimes text.data.length false text.data).filterMap fun hm =>
      if hm.1 ≤ 23 && hm.2 ≤ 59 then some (pad2 hm.1 ++ ":" ++ pad2 hm.2) else none)

/-- `[A-Z]` (the ASCII class of the IATA regex). -/
def isUpperAZ (c : Char) : Bool :=
  'A' ≤ c && c ≤ 'Z'

/-- One attempt of `[A-Z]{3}\b` (after the leading `\b`). -/
def matchIataAt (cs : List Char) : Option (String × List Char) :=
  match cs with
  | a :: b :: c :: r =>
    if isUpperAZ a && isUpperAZ b && isUpperAZ c &&
        (match r with | [] => true | x :: _ => !isWordChar x) then
      some (String.mk [a, b, c], r)
    else none
  | _ => none

/-- `re.findall(r"\b[A-Z]{3}\b", text)`. -/
def findallIatas : Nat → Bool → List Char → List String
  | 0, _, _ => []
  | _ + 1, _, [] => []
  | fuel + 1, prevW, c :: t =>
    match (if prevW then none else matchIataAt (c :: t)) with
    | some (s, rest) => s :: findallIatas fuel true rest
    | none => findallIatas fuel (isWordChar c) t

/-- ASCII `str.lower` (identity on Hebrew, as in Python). -/
def pyLowerChar (c : Char) : Char :=
  if 'A' ≤ c && c ≤ 'Z' then Char.ofNat (c.toNat + 32) else c

/-- ASCII `str.upper`. -/
def pyUpperChar (c : Char) : Char :=
  if 'a' ≤ c && c ≤ 'z' then Char.ofNat (c.toNat - 32) else c

/-- `CITY_MAP` (app.py:368-375) in source (= dict insertion) order. -/
def cityMap : List (String × String) :=
  [("בנגקוק", "BKK"), ("bangkok", "BKK"),
   ("פוקט", "HKT"), ("phuket", "HKT"),
   ("chiang mai", "CNX"), ("צ\x27יאנג מאי", "CNX"), ("צ׳יאנג מאי", "CNX"),
   ("קוסמוי", "USM"), ("koh samui", "USM"), ("סמוי", "USM"),
   ("קראבי", "KBV"), ("krabi", "KBV"),
   ("תל אביב", "TLV"), ("tel aviv", "TLV"), ("נתבג", "TLV"), ("נתב\"ג", "TLV"),
   ("israel", "TLV")]

/-- Python `sub in s` on character lists. -/
def isSubstrChars (pat : List Char) : List Char → Bool
  | [] => pat.isEmpty
  | c :: t => pat.isPrefixOf (c :: t) || isSubstrChars pat t

/-- The codes accepted by the membership test on app.py:413. -/
def allowedCityCodes : List String :=
  ["BKK", "HKT", "CNX", "USM", "KBV", "TLV"]

/-- One iteration of the `for name, code in CITY_MAP.items()` loop of
`detect_airports` (app.py:412-415): `if not origin: origin = code`,
`elif not dest and code != origin: dest = code`. -/
def cityStep (lowered : List Char) (acc : Option String × Option String)
    (nc : String × String) : Option String × Option String :=
  if isSubstrChars nc.1.data lowered && allowedCityCodes.contains nc.2 then
    match acc with
    | (none, d) => (some nc.2, d)
    | (some o, none) => if nc.2 ≠ o then (some o, some nc.2) else (some o, none)
    | (some o, some d) => (some o, some d)
  else acc

/-- The whole `CITY_MAP` loop: first matching entry's code becomes the
origin, the next matching entry with a distinct code becomes the
destination. -/
def cityScan (lowered : List Char) : Option String × Option String :=
  cityMap.foldl (cityStep lowered) (none, none)

/-- `detect_airports(text)` (app.py:405-418), returning
`(origin, dest)`. -/
def detectAirports (text : String) : Option String × Option String :=
  let iatas := findallIatas text.data.length false text.data
  let od :=
    if iatas.length ≥ 2 then (iatas.head?, iatas.tail.head?)
    else cityScan (text.data.map pyLowerChar)
  if od.2.isSome && od.1.isNone then (some "TLV", od.2) else od

/-! ## Structured AI extractor (app.py:421-450)

`ai_extract_booking_from_text` is modelled as a function of (i) whether the
OpenAI client is configured, (ii) the completion call's outcome, and
(iii) an arbitrary JSON parser standing for the standard library's
`json.loads` (not part of this repository's sources): `none` models a
`json.JSONDecodeError`.  The whole body sits in one `try`, whose `except`
returns empty lists; a parsed non-dict value makes the subsequent
`in` / `[...]` / `.get` operations raise inside that same `try`, so it also
yields empty lists. -/

/-- Outcome of the `gpt_chat` call: an exception (timeout, quota, network,
unconfigured client — `gpt_chat` itself raises on those), or a reply whose
`message.content` may be `None`. -/
inductive AiOutcome where
  | raise : String → AiOutcome
  | reply : Option String → AiOutcome

/-- The slice step of app.py:439:
`s[s.find("\x7b") : s.rfind("\x7d") + 1] if "\x7b" in s and "\x7d" in s else "\x7b\x7d"`
on the stripped reply. -/
def aiSliceSelect (s : List Char) : List Char :=
  if s.contains '\x7b' && s.contains '\x7d' then
    match s.findIdx? (· = '\x7b'), (s.reverse.findIdx? (· = '\x7d')) with
    | some i, some jr => (s.drop i).take (s.length - 1 - jr + 1 - i)
    | _, _ => []
  else "\x7b\x7d".data

/-- `x or []` on a `JVal` (app.py:447). -/
def jvalOrEmptyList (v : JVal) : JVal :=
  if v.pyTruthy then v else .arr .nil

/-- The singular-key shim (app.py:441-446) and final projection (app.py:447)
applied to a parsed dict. -/
def aiShim (ms : JMembers) : JVal × JVal :=
  let ms1 :=
    if ms.hasKey "flights" then ms
    else ms.set "flights"
      (match ms.get "flight" with
        | .obj f => .arr (.cons (.obj f) .nil)
        | _ => .arr .nil)
  let ms2 :=
    if ms1.hasKey "hotels" then ms1
    else ms1.set "hotels"
      (match ms1.get "hotel" with
        | .obj h => .arr (.cons (.obj h) .nil)
        | _ => .arr .nil)
  (jvalOrEmptyList (ms2.get "flights"), jvalOrEmptyList (ms2.get "hotels"))

/-- `ai_extract_booking_from_text` (app.py:421-450): the pair
`(flights, hotels)` it returns. -/
def aiExtractBookingFromText (configured : Bool)
    (jparse : String → Option JVal) (outcome : AiOutcome) : JVal × JVal :=
  if !configured then (.arr .nil, .arr .nil)
  else
    match outcome with
    | .raise _ => (.arr .nil, .arr .nil)
    | .reply content =>
      let s := aiSliceSelect (pyStripChars (content.getD "").data)
      let parsed : Option JVal :=
        if s.isEmpty then some (.obj .nil) else jparse (String.mk s)
      match parsed with
      | none => (.arr .nil, .arr .nil)
      | some (.obj ms) => aiShim ms
      | some _ => (.arr .nil, .arr .nil)

/-! ## Booking indexer (app.py:525-598)

`index_booking_from_text` is modelled as a function of the text and of the
AI extractor's candidate lists (the external completion makes those an
input).  Candidates are modelled in the well-typed shape the extractor is
instructed to produce (string-or-absent fields); a candidate of another
shape would raise `AttributeError`/`TypeError` out of the un-guarded loop
body, persisting nothing — outside the claims under verification.  The
generated `uuid4` identity and `utcnow` timestamp of a row are external
nondeterminism and are omitted from the row model, as is the best-effort
calendar sync (an external collaborator). -/

/-- The `passengers` value of an AI flight candidate (app.py:553-559):
a display string, a list of names, or anything else (mapped to `None`). -/
inductive PaxVal where
  | s : String → PaxVal
  | l : List String → PaxVal
  | otherVal : PaxVal

/-- A flight candidate (pre-persistence form). -/
structure FlightCand where
  origin : Option String
  dest : Option String
  departDate : Option String
  departTime : Option String
  arrivalDate : Option String
  arrivalTime : Option String
  airline : Option String
  flightNumber : Option String
  pnr : Option String
  passengers : Option PaxVal

/-- A hotel candidate (pre-persistence form). -/
structure HotelCand where
  hotelName : Option String
  city : Option String
  checkinDate : Option String
  checkoutDate : Option String
  address : Option String

/-- Python truthiness of an optional string field (`None` and `""` are
falsy). -/
def truthyS : Option String → Bool
  | some s => s ≠ ""
  | none => false

/-- `pax_str` (app.py:553-559): join a list with `", "` keeping truthy
entries, pass a string through, otherwise `None`. -/
def paxToStr : Option PaxVal → Option String
  | some (.l xs) => some (String.intercalate ", " (xs.filter (· ≠ "")))
  | some (.s s) => some s
  | _ => none

/-- The heuristic ("naive") flight candidate (app.py:529-539): built only
when a destination was resolved; dates/times come from the first recognized
ones. -/
def naiveFlight (text : String) : Option FlightCand :=
  let ap := detectAirports text
  if ap.2.isSome then
    some { origin := ap.1, dest := ap.2,
           departDate := (parseDates text).head?,
           departTime := (parseTimes text).head?,
           arrivalDate := none, arrivalTime := none,
           airline := none, flightNumber := none, pnr := none,
           passengers := none }
  else none

/-- The fallback rule (app.py:541-546): the AI candidates, or the heuristic
candidate when the AI returned none and the heuristic has both a truthy
destination and a truthy departure date. -/
def selectedFlights (aiFlights : List FlightCand) (text : String) : List FlightCand :=
  match aiFlights with
  | [] =>
    match naiveFlight text with
    | some nf => if truthyS nf.dest && truthyS nf.departDate then [nf] else []
    | none => []
  | fs => fs

/-- The in-loop validity gate for a flight candidate (app.py:550):
`not fl or not fl.get("dest") or not fl.get("depart_date")` skips it (an
empty/falsy candidate dict has no truthy `dest` either, so the record shape
covers that case). -/
def validFlightCand (fl : FlightCand) : Bool :=
  truthyS fl.dest && truthyS fl.departDate

/-- A persisted `flights` row (app.py:562-571), minus generated id/timestamp
(see section comment). -/
structure FlightRow where
  waid : String
  origin : Option String
  dest : Option String
  departDate : Option String
  departTime : Option String
  arrivalDate : Option String
  arrivalTime : Option String
  airline : Option String
  flightNumber : Option String
  pnr : Option String
  passengerName : Option String
  sourceFileId : Option String
  rawExcerpt : String

/-- The row the INSERT of app.py:562-571 writes for a candidate. -/
def mkFlightRow (waid : String) (sourceFileId : Option String)
    (rawExcerpt : String) (fl : FlightCand) : FlightRow :=
  { waid := waid, origin := fl.origin, dest := fl.dest,
    departDate := fl.departDate, departTime := fl.departTime,
    arrivalDate := fl.arrivalDate, arrivalTime := fl.arrivalTime,
    airline := fl.airline, flightNumber := fl.flightNumber, pnr := fl.pnr,
    passengerName := paxToStr fl.passengers,
    sourceFileId := sourceFileId, rawExcerpt := rawExcerpt }

/-- The flight records persisted by one `index_booking_from_text` pass
(app.py:541-571). -/
def indexBookingFlights (waid : String) (text : String)
    (sourceFileId : Option String) (rawExcerpt : String)
    (aiFlights : List FlightCand) : List FlightRow :=
  ((selectedFlights aiFlights text).filter validFlightCand).map
    (mkFlightRow waid sourceFileId rawExcerpt)

/-- The in-loop validity gate for a hotel candidate (app.py:580). -/
def validHotelCand (ho : HotelCand) : Bool :=
  truthyS ho.checkinDate

/-- A persisted `hotels` row (app.py:583-590), minus generated
id/timestamp. -/
structure HotelRow where
  waid : String
  hotelName : Option String
  city : Option String
  checkinDate : Option String
  checkoutDate : Option String
  address : Option String
  sourceFileId : Option String
  rawExcerpt : String

/-- The row the INSERT of app.py:583-590 writes for a candidate. -/
def mkHotelRow (waid : String) (sourceFileId : Option String)
    (rawExcerpt : String) (ho : HotelCand) : HotelRow :=
  { waid := waid, hotelName := ho.hotelName, city := ho.city,
    checkinDate := ho.checkinDate, checkoutDate := ho.checkoutDate,
    address := ho.address, sourceFileId := sourceFileId,
    rawExcerpt := rawExcerpt }

/-- The hotel records persisted by one `index_booking_from_text` pass
(app.py:579-590). -/
def indexBookingHotels (waid : String) (sourceFileId : Option String)
    (rawExcerpt : String) (hotels : List HotelCand) : List HotelRow :=
  (hotels.filter validHotelCand).map (mkHotelRow waid sourceFileId rawExcerpt)

/-! ## Webhook cancel flow (app.py:1014-1134)

For the cancellation claim the relevant state is the `flight_watch` table,
the `recs` table and the sqlite connection's `total_changes` counter: the
connection is opened per request (`get_db` caches it in Flask's `g`), so the
counter starts at zero, is incremented by every successful row
insert/update/delete on the connection, and `db.total_changes` on
app.py:1131 reads the *connection-wide* total, not the count of the DELETE
alone. -/

/-- A `flight_watch` row as far as cancellation is concerned. -/
structure WatchRow where
  waid : String
  flightIata : String
deriving DecidableEq

/-- The request-scoped database state. -/
structure WebhookDb where
  flightWatch : List WatchRow
  recsCount : Nat
  totalChanges : Nat
deriving DecidableEq

/-- `store_recommendation_if_relevant` (app.py:697-714): past the guard it
inserts exactly one `recs` row (and commits), bumping `total_changes`. -/
def storeRecommendationIfRelevant (body : String) (hasGeo : Bool)
    (db : WebhookDb) : WebhookDb :=
  if body = "" && !hasGeo then db
  else { db with recsCount := db.recsCount + 1, totalChanges := db.totalChanges + 1 }

/-- The `cancel_flight` branch (app.py:1124-1134): DELETE scoped by
`(waid, flight_iata)` when a code was given, else by `waid`; the reported
count is `db.total_changes` after the DELETE. -/
def cancelFlightBranch (waid : String) (iataParam : Option String)
    (db : WebhookDb) : WebhookDb × Nat :=
  let iata := String.mk ((iataParam.getD "").data.map pyUpperChar)
  let keep :=
    if iata ≠ "" then
      db.flightWatch.filter fun r => !(r.waid == waid && r.flightIata == iata)
    else
      db.flightWatch.filter fun r => !(r.waid == waid)
  let removed := db.flightWatch.length - keep.length
  let db' := { db with flightWatch := keep, totalChanges := db.totalChanges + removed }
  (db', db'.totalChanges)

/-- The webhook path leading to a cancellation (app.py:1066-1067 then
app.py:1124-1134): any non-empty message body (or a location) first stores a
recommendation row on the same connection, then the cancel branch runs.
A cancel request routed by `nl_route` always has a non-empty body
(app.py:843-844 routes empty input to `general_chat`). -/
def twilioCancelFlow (waid body : String) (hasGeo : Bool)
    (iataParam : Option String) (db0 : WebhookDb) : WebhookDb × Nat :=
  let db1 :=
    if body ≠ "" || hasGeo then storeRecommendationIfRelevant body hasGeo db0
    else db0
  cancelFlightBranch waid iataParam db1

deriving instance DecidableEq for JVal

deriving instance DecidableEq for FwSnapshot

deriving instance DecidableEq for FetchResult

deriving instance DecidableEq for HttpOutcome

deriving instance DecidableEq for FwRow

deriving instance DecidableEq for PaxVal

deriving instance DecidableEq for FlightCand

deriving instance DecidableEq for HotelCand

deriving instance DecidableEq for FlightRow

deriving instance DecidableEq for HotelRow

deriving instance DecidableEq for AiOutcome

/-! ## Decoder for the escape injectivity proof

`decChar` is a left inverse of `escCharGen true` on one escaped character:
it is used only to prove that JSON string escaping (and with it the
serialized snapshot) is injective. -/

/-- Value of a lowercase hex digit. -/
def hexDigVal (c : Char) : Option Nat :=
  if '0' ≤ c && c ≤ '9' then some (c.toNat - 48)
  else if 'a' ≤ c && c ≤ 'f' then some (c.toNat - 87)
  else none

/-- Value of four hex digits. -/
def hex4val (h1 h2 h3 h4 : Char) : Option Nat :=
  match hexDigVal h1, hexDigVal h2, hexDigVal h3, hexDigVal h4 with
  | some d1, some d2, some d3, some d4 => some (4096 * d1 + 256 * d2 + 16 * d3 + d4)
  | _, _, _, _ => none

/-- Decode the leading escaped character of an `escCharGen true` output:
the decoded code point and the remaining characters. -/
def decChar : List Char → Option (Nat × List Char)
  | [] => none
  | c :: r =>
    if c = '\\' then
      match r with
      | [] => none
      | e :: r2 =>
        if e = '"' then some (34, r2)
        else if e = '\\' then some (92, r2)
        else if e = 'b' then some (8, r2)
        else if e = 'f' then some (12, r2)
        else if e = 'n' then some (10, r2)
        else if e = 'r' then some (13, r2)
        else if e = 't' then some (9, r2)
        else if e = 'u' then
          match r2 with
          | h1 :: h2 :: h3 :: h4 :: r3 =>
            match hex4val h1 h2 h3 h4 with
            | some h =>
              if 0xd800 ≤ h ∧ h < 0xdc00 then
                match r3 with
                | '\\' :: 'u' :: g1 :: g2 :: g3 :: g4 :: r4 =>
                  (match hex4val g1 g2 g3 g4 with
                    | some lo =>
                      if 0xdc00 ≤ lo ∧ lo < 0xe000 then
                        some (0x10000 + (h - 0xd800) * 0x400 + (lo - 0xdc00), r4)
                      else none
                    | none => none)
                | _ => none
              else some (h, r3)
            | none => none
          | _ => none
        else none
    else some (c.toNat, r)

/-- Gate-shaped snapshot fields: the provider's `departure.gate` /
`arrival.gate` is a string or absent (`null`), per the canonical-snapshot
data model (spec §3). -/
def isGateLike : JVal → Bool
  | .null => true
  | .str _ => true
  | _ => false

/-- Two provider flight records carry identical field values for the
canonical snapshot: all seventeen projected paths agree.  This is what
"identical field values but different key insertion order" means for two
parsed JSON objects: Python dict lookups see the values, not the order. -/
def fwAgreeProjection (r1 r2 : JVal) : Prop :=
  jsafe r1 ["flight_status"] = jsafe r2 ["flight_status"] ∧
  jsafe r1 ["airline", "name"] = jsafe r2 ["airline", "name"] ∧
  jsafe r1 ["flight", "iata"] = jsafe r2 ["flight", "iata"] ∧
  jsafe r1 ["flight", "icao"] = jsafe r2 ["flight", "icao"] ∧
  jsafe r1 ["flight", "number"] = jsafe r2 ["flight", "number"] ∧
  jsafe r1 ["departure", "airport"] = jsafe r2 ["departure", "airport"] ∧
  jsafe r1 ["departure", "scheduled"] = jsafe r2 ["departure", "scheduled"] ∧
  jsafe r1 ["departure", "estimated"] = jsafe r2 ["departure", "estimated"] ∧
  jsafe r1 ["departure", "actual"] = jsafe r2 ["departure", "actual"] ∧
  jsafe r1 ["departure", "terminal"] = jsafe r2 ["departure", "terminal"] ∧
  jsafe r1 ["departure", "gate"] = jsafe r2 ["departure", "gate"] ∧
  jsafe r1 ["arrival", "airport"] = jsafe r2 ["arrival", "airport"] ∧
  jsafe r1 ["arrival", "scheduled"] = jsafe r2 ["arrival", "scheduled"] ∧
  jsafe r1 ["arrival", "estimated"] = jsafe r2 ["arrival", "estimated"] ∧
  jsafe r1 ["arrival", "actual"] = jsafe r2 ["arrival", "actual"] ∧
  jsafe r1 ["arrival", "terminal"] = jsafe r2 ["arrival", "terminal"] ∧
  jsafe r1 ["arrival", "gate"] = jsafe r2 ["arrival", "gate"] ∧
  jsafe r1 ["arrival", "baggage"] = jsafe r2 ["arrival", "baggage"]

/-- The codes of the entries of a city table whose name occurs in the
lowered text, in table order (used to characterize the `cityScan` fold). -/
def cityCodesIn (l : List (String × String)) (lowered : List Char) : List String :=
  (l.filter fun nc =>
    isSubstrChars nc.1.data lowered && allowedCityCodes.contains nc.2).map (·.2)

/-- The matching codes of `CITY_MAP`, in table order. -/
def matchedCityCodes (lowered : List Char) : List String :=
  cityCodesIn cityMap lowered

/-! ## Lemmas: hex and escape roundtrip -/

theorem hexDigVal_hexDig : ∀ d < 16, hexDigVal (hexDig d) = some d := by
  intro d hd
  interval_cases d <;> rfl

theorem hex4val_hex4 (n : Nat) (h : n < 65536) :
    hex4val (hexDig (n / 4096 % 16)) (hexDig (n / 256 % 16))
      (hexDig (n / 16 % 16)) (hexDig (n % 16)) = some n := by
  have h1 := hexDigVal_hexDig (n / 4096 % 16) (Nat.mod_lt _ (by norm_num))
  have h2 := hexDigVal_hexDig (n / 256 % 16) (Nat.mod_lt _ (by norm_num))
  have h3 := hexDigVal_hexDig (n / 16 % 16) (Nat.mod_lt _ (by norm_num))
  have h4 := hexDigVal_hexDig (n % 16) (Nat.mod_lt _ (by norm_num))
  simp only [hex4val, h1, h2, h3, h4]
  congr 1
  omega

theorem decChar_u_pair (h1 h2 h3 h4 g1 g2 g3 g4 : Char) (r4 : List Char) (hN lo : Nat)
    (hx : hex4val h1 h2 h3 h4 = some hN) (hs : 0xd800 ≤ hN ∧ hN < 0xdc00)
    (hy : hex4val g1 g2 g3 g4 = some lo) (hs2 : 0xdc00 ≤ lo ∧ lo < 0xe000) :
    decChar ('\\' :: 'u' :: h1 :: h2 :: h3 :: h4 :: '\\' :: 'u' :: g1 :: g2 :: g3 :: g4 :: r4) =
      some (0x10000 + (hN - 0xd800) * 0x400 + (lo - 0xdc00), r4) := by
  simp [decChar, hx, hs, hy, hs2]

theorem decChar_escChar (c : Char) (rest : List Char) :
    decChar (escCharGen true c ++ rest) = some (c.toNat, rest) := by
  have hv : c.toNat < 0xd800 ∨ (0xdfff < c.toNat ∧ c.toNat < 0x110000) := c.valid
  by_cases hq : c = '"'
  · subst hq; simp [escCharGen, decChar]
  by_cases hb : c = '\\'
  · subst hb; simp [escCharGen, decChar]
  by_cases h8 : c.toNat = 8
  · simp [escCharGen, hq, hb, h8, decChar]
  by_cases h12 : c.toNat = 12
  · simp [escCharGen, hq, hb, h8, h12, decChar]
  by_cases h10 : c.toNat = 10
  · simp [escCharGen, hq, hb, h8, h12, h10, decChar]
  by_cases h13 : c.toNat = 13
  · simp [escCharGen, hq, hb, h8, h12, h10, h13, decChar]
  by_cases h9 : c.toNat = 9
  · simp [escCharGen, hq, hb, h8, h12, h10, h13, h9, decChar]
  by_cases hc : c.toNat < 0x20
  · have hhex := hex4val_hex4 c.toNat (by omega)
    simp [escCharGen, hq, hb, h8, h12, h10, h13, h9, hc, hex4, decChar, hhex]
    omega
  by_cases hascii : c.toNat ≤ 0x7e
  · simp [escCharGen, hq, hb, h8, h12, h10, h13, h9, hc, hascii, decChar, hb]
  by_cases hbmp : c.toNat < 0x10000
  · have hhex := hex4val_hex4 c.toNat (by omega)
    have hns : ¬(0xd800 ≤ c.toNat ∧ c.toNat < 0xdc00) := by omega
    simp [escCharGen, hq, hb, h8, h12, h10, h13, h9, hc, hascii, hbmp,
      hex4, decChar, hhex, hns]
  · have hlt : c.toNat < 0x110000 := by omega
    have hmodlt := Nat.mod_lt (c.toNat - 0x10000) (y := 0x400) (by norm_num)
    have hhi : 0xd800 + (c.toNat - 0x10000) / 0x400 < 65536 := by omega
    have hlo : 0xdc00 + (c.toNat - 0x10000) % 0x400 < 65536 := by omega
    have he : escCharGen true c =
        ('\\' :: 'u' :: hex4 (0xd800 + (c.toNat - 0x10000) / 0x400)) ++
          ('\\' :: 'u' :: hex4 (0xdc00 + (c.toNat - 0x10000) % 0x400)) := by
      unfold escCharGen
      rw [if_neg hq, if_neg hb, if_neg h8, if_neg h12, if_neg h10, if_neg h13,
        if_neg h9, if_neg hc, if_pos rfl, if_neg hascii, if_neg hbmp]
    rw [he]
    simp only [hex4, List.cons_append, List.nil_append]
    rw [decChar_u_pair _ _ _ _ _ _ _ _ _ _ _
      (hex4val_hex4 _ hhi) (by omega) (hex4val_hex4 _ hlo) (by omega)]
    have hmod := Nat.div_add_mod (c.toNat - 0x10000) 0x400
    simp only [Option.some.injEq, Prod.mk.injEq]
    exact ⟨by omega, trivial⟩

theorem escCharGen_ne_nil (c : Char) : escCharGen true c ≠ [] := by
  intro h
  have hd := decChar_escChar c []
  rw [List.append_nil, h] at hd
  simp [decChar] at hd

theorem escListGen_injective : ∀ l1 l2 : List Char,
    escListGen true l1 = escListGen true l2 → l1 = l2 := by
  intro l1
  induction l1 with
  | nil =>
    intro l2 h
    cases l2 with
    | nil => rfl
    | cons c t =>
      exfalso
      simp only [escListGen] at h
      exact escCharGen_ne_nil c (List.append_eq_nil.mp h.symm).1
  | cons c t ih =>
    intro l2 h
    cases l2 with
    | nil =>
      exfalso
      simp only [escListGen] at h
      exact escCharGen_ne_nil c (List.append_eq_nil.mp h).1
    | cons c2 t2 =>
      simp only [escListGen] at h
      have h1 := decChar_escChar c (escListGen true t)
      rw [h, decChar_escChar c2 (escListGen true t2)] at h1
      have hn : c2.toNat = c.toNat := congrArg (·.1) (Option.some.inj h1)
      have ht : escListGen true t2 = escListGen true t :=
        congrArg (·.2) (Option.some.inj h1)
      have hc : c = c2 := Char.ext (UInt32.ext hn.symm)
      rw [hc, ih t2 ht.symm]

theorem strDumpChars_injective (s1 s2 : String)
    (h : strDumpChars true s1 = strDumpChars true s2) : s1 = s2 := by
  unfold strDumpChars at h
  have h2 := List.append_cancel_right (List.cons_injective h)
  exact String.ext (escListGen_injective _ _ h2)

theorem gateLike_shape (g : JVal) (hg : isGateLike g = true) :
    g = .null ∨ ∃ s, g = .str s := by
  cases g <;> simp_all [isGateLike]

theorem jdumpChars_gateLike_injective (g g' : JVal)
    (hg : isGateLike g = true) (hg' : isGateLike g' = true)
    (h : jdumpChars true true g = jdumpChars true true g') : g = g' := by
  rcases gateLike_shape g hg with h1 | ⟨s1, h1⟩ <;>
    rcases gateLike_shape g' hg' with h2 | ⟨s2, h2⟩ <;> subst h1 <;> subst h2
  · rfl
  · exfalso; simp [jdumpChars, strDumpChars] at h
  · exfalso; simp [jdumpChars, strDumpChars] at h
  · simp only [jdumpChars] at h
    rw [strDumpChars_injective s1 s2 h]

/-! ## Lemmas: snapshot hash and cron step -/

set_option maxRecDepth 8000 in
theorem fwSnapshotHash_ne_of_depGate_ne (s : FwSnapshot) (g g' : JVal)
    (hg : isGateLike g = true) (hg' : isGateLike g' = true) (hne : g ≠ g') :
    fwSnapshotHash { s with depGate := g } ≠ fwSnapshotHash { s with depGate := g' } := by
  intro h
  apply hne
  apply jdumpChars_gateLike_injective g g' hg hg'
  have h2 := congrArg String.data h
  dsimp only [fwSnapshotHash, fwSnapshotSortedDumpChars] at h2
  simp only [List.append_assoc, List.cons_append, List.nil_append,
    List.cons.injEq, List.append_right_inj, true_and] at h2
  exact List.append_cancel_right h2

set_option maxRecDepth 8000 in
theorem fwSnapshotHash_ne_of_arrGate_ne (s : FwSnapshot) (g g' : JVal)
    (hg : isGateLike g = true) (hg' : isGateLike g' = true) (hne : g ≠ g') :
    fwSnapshotHash { s with arrGate := g } ≠ fwSnapshotHash { s with arrGate := g' } := by
  intro h
  apply hne
  apply jdumpChars_gateLike_injective g g' hg hg'
  have h2 := congrArg String.data h
  dsimp only [fwSnapshotHash, fwSnapshotSortedDumpChars] at h2
  simp only [List.append_assoc, List.cons_append, List.nil_append,
    List.cons.injEq, List.append_right_inj, true_and] at h2
  exact List.append_cancel_right h2

theorem fwSnapshotFromAviationstack_congr (r1 r2 : JVal)
    (h : fwAgreeProjection r1 r2) :
    fwSnapshotFromAviationstack r1 = fwSnapshotFromAviationstack r2 := by
  obtain ⟨e1, e2, e3, e4, e5, e6, e7, e8, e9, e10, e11, e12, e13, e14, e15, e16, e17, e18⟩ := h
  unfold fwSnapshotFromAviationstack
  rw [e1, e2, e3, e4, e5, e6, e7, e8, e9, e10, e11, e12, e13, e14, e15, e16, e17, e18]

theorem cronStep_unchanged (cc : List String) (now : String) (row : FwRow)
    (d : JVal) (rest : JList)
    (h : row.lastHash = some (fwSnapshotHash (fwSnapshotFromAviationstack d))) :
    cronStep cc now row (.ok (.fdata (.arr (.cons d rest)))) = (row, [], 0, 0) := by
  show cronDiff cc now row d = (row, [], 0, 0)
  simp only [cronDiff]
  rw [h, bne_self_eq_false]
  rfl

theorem cronStep_changed (cc : List String) (now : String) (row : FwRow)
    (d : JVal) (rest : JList)
    (h : row.lastHash ≠ some (fwSnapshotHash (fwSnapshotFromAviationstack d))) :
    cronStep cc now row (.ok (.fdata (.arr (.cons d rest)))) =
      ({ row with
          lastSnapshot := some (fwSnapshotStoreDump (fwSnapshotFromAviationstack d)),
          lastHash := some (fwSnapshotHash (fwSnapshotFromAviationstack d)),
          updatedAt := now },
        row.waid :: ((cc.filter fun x => x ≠ "").map ccNormalize), 1, 0) := by
  show cronDiff cc now row d = _
  simp only [cronDiff]
  rw [show (row.lastHash != some (fwSnapshotHash (fwSnapshotFromAviationstack d))) = true from
    bne_iff_ne.mpr h]
  rfl

/-! ## Lemmas: dict set/get, de-duplication, city scan -/

theorem JMembers.get_set_self : ∀ (ms : JMembers) (k : String) (v : JVal),
    (ms.set k v).get k = v
  | .nil, k, v => by simp [JMembers.set, JMembers.get]
  | .cons k2 w t, k, v => by
    by_cases hk : k2 = k
    · simp [JMembers.set, JMembers.get, hk]
    · simp [JMembers.set, JMembers.get, hk, JMembers.get_set_self t k v]

theorem JMembers.get_set_ne : ∀ (ms : JMembers) (k k2 : String) (v : JVal),
    k ≠ k2 → (ms.set k v).get k2 = ms.get k2
  | .nil, k, k2, v, h => by simp [JMembers.set, JMembers.get, h]
  | .cons k3 w t, k, k2, v, h => by
    by_cases hk : k3 = k
    · subst hk; simp [JMembers.set, JMembers.get, h]
    · simp [JMembers.set, JMembers.get, hk, JMembers.get_set_ne t k k2 v h]

theorem JMembers.hasKey_set_ne : ∀ (ms : JMembers) (k k2 : String) (v : JVal),
    k ≠ k2 → (ms.set k v).hasKey k2 = ms.hasKey k2
  | .nil, k, k2, v, h => by simp [JMembers.set, JMembers.hasKey, h]
  | .cons k3 w t, k, k2, v, h => by
    by_cases hk : k3 = k
    · subst hk; simp [JMembers.set, JMembers.hasKey, h]
    · simp [JMembers.set, JMembers.hasKey, hk, JMembers.hasKey_set_ne t k k2 v h]

theorem dedupKeepFirst_mem (x : String) :
    ∀ (l seen : List String), x ∈ dedupKeepFirst seen l ↔ (x ∈ l ∧ x ∉ seen) := by
  intro l
  induction l with
  | nil => intro seen; simp [dedupKeepFirst]
  | cons y t ih =>
    intro seen
    by_cases hy : y ∈ seen
    · rw [dedupKeepFirst, if_pos hy, ih]
      constructor
      · rintro ⟨hx, hn⟩
        exact ⟨List.mem_cons_of_mem y hx, hn⟩
      · rintro ⟨hx, hn⟩
        rcases List.mem_cons.mp hx with rfl | hx
        · exact absurd hy hn
        · exact ⟨hx, hn⟩
    · rw [dedupKeepFirst, if_neg hy]
      constructor
      · intro hx
        rcases List.mem_cons.mp hx with rfl | hx
        · exact ⟨List.mem_cons_self x t, hy⟩
        · obtain ⟨h1, h2⟩ := (ih (y :: seen)).mp hx
          exact ⟨List.mem_cons_of_mem y h1,
            fun hc => h2 (List.mem_cons_of_mem y hc)⟩
      · rintro ⟨hx, hn⟩
        rcases List.mem_cons.mp hx with rfl | hx
        · exact List.mem_cons_self x _
        · by_cases hxy : x = y
          · subst hxy; exact List.mem_cons_self x _
          · refine List.mem_cons_of_mem _ ((ih (y :: seen)).mpr ⟨hx, fun hc => ?_⟩)
            rcases List.mem_cons.mp hc with h | h
            · exact hxy h
            · exact hn h

theorem dedupKeepFirst_nodup : ∀ (l seen : List String), (dedupKeepFirst seen l).Nodup := by
  intro l
  induction l with
  | nil => intro seen; simp [dedupKeepFirst]
  | cons y t ih =>
    intro seen
    by_cases hy : y ∈ seen
    · rw [dedupKeepFirst, if_pos hy]; exact ih seen
    · rw [dedupKeepFirst, if_neg hy]
      rw [List.nodup_cons]
      refine ⟨fun hc => ?_, ih (y :: seen)⟩
      exact ((dedupKeepFirst_mem y t (y :: seen)).mp hc).2 (List.mem_cons_self y seen)

theorem parseNotifyCc_filter (env : String) :
    (parseNotifyCc env).filter (fun x => x ≠ "") = parseNotifyCc env := by
  apply List.filter_eq_self.mpr
  intro a ha
  exact (List.mem_filter.mp ha).2

theorem cityCodesIn_cons (nc : String × String) (t : List (String × String))
    (lowered : List Char) :
    cityCodesIn (nc :: t) lowered =
      if isSubstrChars nc.1.data lowered && allowedCityCodes.contains nc.2 then
        nc.2 :: cityCodesIn t lowered
      else cityCodesIn t lowered := by
  unfold cityCodesIn
  rw [List.filter_cons]
  by_cases hb : (isSubstrChars nc.1.data lowered && allowedCityCodes.contains nc.2) = true
  · rw [if_pos hb, if_pos hb, List.map_cons]
  · rw [if_neg hb, if_neg hb]

theorem cityStep_done (lowered : List Char) (nc : String × String) (o dd : String) :
    cityStep lowered (some o, some dd) nc = (some o, some dd) := by
  unfold cityStep
  split <;> rfl

theorem cityStep_nomatch (lowered : List Char) (nc : String × String)
    (acc : Option String × Option String)
    (hm : ¬(isSubstrChars nc.1.data lowered && allowedCityCodes.contains nc.2) = true) :
    cityStep lowered acc nc = acc := by
  unfold cityStep
  rw [if_neg hm]

theorem cityStep_orig_pos (lowered : List Char) (nc : String × String) (o : String)
    (hm : (isSubstrChars nc.1.data lowered && allowedCityCodes.contains nc.2) = true)
    (hne : nc.2 ≠ o) :
    cityStep lowered (some o, none) nc = (some o, some nc.2) := by
  unfold cityStep
  rw [if_pos hm]
  exact if_pos hne

theorem cityStep_orig_neg (lowered : List Char) (nc : String × String) (o : String)
    (hm : (isSubstrChars nc.1.data lowered && allowedCityCodes.contains nc.2) = true)
    (hne : ¬nc.2 ≠ o) :
    cityStep lowered (some o, none) nc = (some o, none) := by
  unfold cityStep
  rw [if_pos hm]
  exact if_neg hne

theorem cityStep_start_pos (lowered : List Char) (nc : String × String)
    (hm : (isSubstrChars nc.1.data lowered && allowedCityCodes.contains nc.2) = true) :
    cityStep lowered (none, none) nc = (some nc.2, none) := by
  unfold cityStep
  rw [if_pos hm]

theorem cityFold_done (lowered : List Char) (o dd : String) :
    ∀ l : List (String × String),
      l.foldl (cityStep lowered) (some o, some dd) = (some o, some dd) := by
  intro l
  induction l with
  | nil => rfl
  | cons nc t ih =>
    rw [List.foldl_cons, cityStep_done, ih]

theorem cityFold_orig (lowered : List Char) (o : String) :
    ∀ l : List (String × String),
      l.foldl (cityStep lowered) (some o, none) =
        (some o, (cityCodesIn l lowered).find? (fun cde => cde ≠ o)) := by
  intro l
  induction l with
  | nil => rfl
  | cons nc t ih =>
    rw [List.foldl_cons, cityCodesIn_cons]
    by_cases hm : (isSubstrChars nc.1.data lowered && allowedCityCodes.contains nc.2) = true
    · rw [if_pos hm]
      by_cases hne : nc.2 ≠ o
      · rw [cityStep_orig_pos lowered nc o hm hne, cityFold_done,
          List.find?_cons_of_pos _ (by simpa using hne)]
      · rw [cityStep_orig_neg lowered nc o hm hne, ih,
          List.find?_cons_of_neg _ (by simpa using hne)]
    · rw [if_neg hm, cityStep_nomatch lowered nc _ hm, ih]

theorem cityFold_start (lowered : List Char) :
    ∀ l : List (String × String),
      l.foldl (cityStep lowered) (none, none) =
        ((cityCodesIn l lowered).head?,
          match cityCodesIn l lowered with
          | [] => none
          | o :: rest => rest.find? (fun cde => cde ≠ o)) := by
  intro l
  induction l with
  | nil => rfl
  | cons nc t ih =>
    rw [List.foldl_cons, cityCodesIn_cons]
    by_cases hm : (isSubstrChars nc.1.data lowered && allowedCityCodes.contains nc.2) = true
    · rw [if_pos hm, cityStep_start_pos lowered nc hm, cityFold_orig]
      rfl
    · rw [if_neg hm, cityStep_nomatch lowered nc _ hm, ih]

/-! ## The claims -/

/-- C1: in `index_booking_from_text`, if the AI extractor returned one or
more flight candidates, exactly those candidates are used (the persisted
rows are built from them alone, the heuristic candidate is never appended);
if the AI extractor returned zero candidates and the heuristic candidate has
a (truthy) destination and departure date, that single heuristic candidate
is the one promoted to the list of flights to persist. -/
theorem claim_c1 (waid text : String) (sourceFileId : Option String)
    (rawExcerpt : String) (aiFlights : List FlightCand) :
    (aiFlights ≠ [] →
      selectedFlights aiFlights text = aiFlights ∧
      indexBookingFlights waid text sourceFileId rawExcerpt aiFlights =
        (aiFlights.filter validFlightCand).map (mkFlightRow waid sourceFileId rawExcerpt)) ∧
    (aiFlights = [] → ∀ nf, naiveFlight text = some nf →
      truthyS nf.dest = true → truthyS nf.departDate = true →
      selectedFlights aiFlights text = [nf] ∧
      indexBookingFlights waid text sourceFileId rawExcerpt aiFlights =
        [mkFlightRow waid sourceFileId rawExcerpt nf]) := by
  constructor
  · intro hne
    cases aiFlights with
    | nil => exact absurd rfl hne
    | cons f fs => exact ⟨rfl, rfl⟩
  · intro he nf hnf h1 h2
    subst he
    have hsel : selectedFlights [] text = [nf] := by
      unfold selectedFlights
      rw [hnf]
      show (if (truthyS nf.dest && truthyS nf.departDate) = true then [nf] else []) = [nf]
      rw [h1, h2]
      rfl
    refine ⟨hsel, ?_⟩
    unfold indexBookingFlights
    rw [hsel]
    simp [validFlightCand, h1, h2]

/-- C1 witness: with AI candidates present (`dest=HKT`), the AI result is
used as-is and the heuristic candidate (`dest=BKK` from the text) does not
appear; with zero AI candidates, the heuristic candidate is promoted. -/
theorem claim_c1_witness :
    (selectedFlights
        [{ origin := some "TLV", dest := some "HKT", departDate := some "2025-09-10",
           departTime := none, arrivalDate := none, arrivalTime := none,
           airline := none, flightNumber := none, pnr := none, passengers := none }]
        "TLV BKK 2025-09-08" =
      [{ origin := some "TLV", dest := some "HKT", departDate := some "2025-09-10",
         departTime := none, arrivalDate := none, arrivalTime := none,
         airline := none, flightNumber := none, pnr := none, passengers := none }]) ∧
    (selectedFlights [] "TLV BKK 2025-09-08" =
      [{ origin := some "TLV", dest := some "BKK", departDate := some "2025-09-08",
         departTime := none, arrivalDate := none, arrivalTime := none,
         airline := none, flightNumber := none, pnr := none, passengers := none }]) := by
  constructor
  · exact ((claim_c1 "972" "TLV BKK 2025-09-08" none "x" _).1 (by decide)).1
  · exact ((claim_c1 "972" "TLV BKK 2025-09-08" none "x" []).2 rfl _
      (by decide) (by decide) (by decide)).1

/-- C3: every flight row persisted by the indexer has a truthy destination
and departure date, and every hotel row a truthy check-in date; an invalid
candidate is dropped as a whole — the persisted rows are exactly the images
of the valid candidates. -/
theorem claim_c3 (waid text : String) (sourceFileId : Option String)
    (rawExcerpt : String) (aiFlights : List FlightCand) (hotels : List HotelCand) :
    (indexBookingFlights waid text sourceFileId rawExcerpt aiFlights =
      ((selectedFlights aiFlights text).filter validFlightCand).map
        (mkFlightRow waid sourceFileId rawExcerpt)) ∧
    (∀ row ∈ indexBookingFlights waid text sourceFileId rawExcerpt aiFlights,
      truthyS row.dest = true ∧ truthyS row.departDate = true) ∧
    (indexBookingHotels waid sourceFileId rawExcerpt hotels =
      (hotels.filter validHotelCand).map (mkHotelRow waid sourceFileId rawExcerpt)) ∧
    (∀ hrow ∈ indexBookingHotels waid sourceFileId rawExcerpt hotels,
      truthyS hrow.checkinDate = true) := by
  refine ⟨rfl, ?_, rfl, ?_⟩
  · intro row hrow
    simp only [indexBookingFlights, List.mem_map, List.mem_filter] at hrow
    obtain ⟨cand, ⟨_, hval⟩, hmk⟩ := hrow
    rw [validFlightCand, Bool.and_eq_true] at hval
    subst hmk
    exact hval
  · intro hrow hmem
    simp only [indexBookingHotels, List.mem_map, List.mem_filter] at hmem
    obtain ⟨cand, ⟨_, hval⟩, hmk⟩ := hmem
    subst hmk
    exact hval

/-- C3 witness: a concrete pass where an AI candidate missing `depart_date`
is dropped while a complete candidate persists, and a hotel without
`checkin_date` is dropped. -/
theorem claim_c3_witness :
    indexBookingFlights "972" "no heuristic here" none "x"
        [{ origin := some "TLV", dest := some "BKK", departDate := none,
           departTime := none, arrivalDate := none, arrivalTime := none,
           airline := some "EL AL", flightNumber := some "LY81", pnr := some "ABC123",
           passengers := none },
         { origin := some "TLV", dest := some "HKT", departDate := some "2025-09-10",
           departTime := none, arrivalDate := none, arrivalTime := none,
           airline := none, flightNumber := none, pnr := none, passengers := none }] =
      [{ waid := "972", origin := some "TLV", dest := some "HKT",
         departDate := some "2025-09-10", departTime := none, arrivalDate := none,
         arrivalTime := none, airline := none, flightNumber := none, pnr := none,
         passengerName := none, sourceFileId := none, rawExcerpt := "x" }] ∧
    indexBookingHotels "972" none "x"
        [{ hotelName := some "H", city := some "BKK", checkinDate := none,
           checkoutDate := none, address := none }] = [] ∧
    (∀ row ∈ indexBookingFlights "972" "no heuristic here" none "x"
        [{ origin := some "TLV", dest := some "HKT", departDate := some "2025-09-10",
           departTime := none, arrivalDate := none, arrivalTime := none,
           airline := none, flightNumber := none, pnr := none, passengers := none }],
      truthyS row.dest = true ∧ truthyS row.departDate = true) := by
  refine ⟨by decide, by decide, ?_⟩
  exact (claim_c3 "972" "no heuristic here" none "x" _ []).2.1

/-- C5 counterexample: the claim says the fetcher "never raises", but
`requests.get` on app.py:764 is not guarded by a `try`: a transport
exception propagates to the caller (modelled as `Except.error`) instead of
being returned as an `error` dictionary. -/
theorem claim_c5_counterexample :
    fwFetchAviationstack "key0" (.exn "requests ConnectTimeout") =
      Except.error "requests ConnectTimeout" := rfl

/-- C5 (amended): the fetcher returns `{error: ...}` for a missing access
key or a non-200 status or an unparsable 200 body, and `{data: ...}` for a
200 JSON object body; but a transport-level exception of the HTTP call
propagates to the caller (the cron loop catches it), as does the
`AttributeError` on a 200 body whose JSON is not an object. -/
theorem claim_c5_amended (key : String) (st : Nat) (body m : String)
    (js : Option JVal) (ms : JMembers) :
    (fwFetchAviationstack "" (.exn m) = .ok (.ferror "Missing AVIATIONSTACK_KEY")) ∧
    (fwFetchAviationstack "" (.resp st body js) =
      .ok (.ferror "Missing AVIATIONSTACK_KEY")) ∧
    (key ≠ "" → fwFetchAviationstack key (.exn m) = .error m) ∧
    (key ≠ "" → st ≠ 200 →
      fwFetchAviationstack key (.resp st body js) =
        .ok (.ferror ("aviationstack HTTP " ++ toString st))) ∧
    (key ≠ "" → fwFetchAviationstack key (.resp 200 body none) =
      .ok (.ferror "aviationstack JSON parse")) ∧
    (key ≠ "" → fwFetchAviationstack key (.resp 200 body (some (.obj ms))) =
      .ok (.fdata (ms.getD "data" (.arr .nil)))) ∧
    (key ≠ "" → fwFetchAviationstack key (.resp 200 body (some (.str "oops"))) =
      .error "AttributeError: no attribute get") := by
  refine ⟨rfl, rfl, ?_, ?_, ?_, ?_, ?_⟩
  · intro hk
    simp [fwFetchAviationstack, hk]
  · intro hk hst
    simp [fwFetchAviationstack, hk, hst]
  · intro hk
    simp [fwFetchAviationstack, hk]
  · intro hk
    simp [fwFetchAviationstack, hk]
  · intro hk
    simp [fwFetchAviationstack, hk]

/-- C5 witness: the amended characterization applied at concrete inputs. -/
theorem claim_c5_witness :
    ("k" : String) ≠ "" ∧ (403 : Nat) ≠ 200 ∧
    fwFetchAviationstack "k" (.resp 403 "denied" none) =
      .ok (.ferror "aviationstack HTTP 403") ∧
    fwFetchAviationstack "k"
        (.resp 200 "x" (some (.obj (.cons "data" (.arr (.cons .null .nil)) .nil)))) =
      .ok (.fdata (.arr (.cons .null .nil))) := by
  refine ⟨by decide, by decide, ?_, ?_⟩
  · exact (claim_c5_amended "k" 403 "denied" "m" none .nil).2.2.2.1
      (by decide) (by decide)
  · exact (claim_c5_amended "k" 403 "x" "m" none
      (.cons "data" (.arr (.cons .null .nil)) .nil)).2.2.2.2.2.1 (by decide)

/-- C9 (code bug): cancellation deletes exactly the rows in scope — the
`(owner, code)` pair with a code, all the owner's rows without one — but the
count it reports is `db.total_changes`, the sqlite *connection-wide* change
counter (app.py:1131); the webhook has already inserted a recommendation row
on the same connection for any non-empty message body (app.py:1066-1067,
app.py:706-712), so the reported count exceeds the number of rows removed
by one.  Below: one matching row is removed, yet 2 is reported; all three
scoping facts hold. -/
theorem claim_c9_bug :
    (twilioCancelFlow "972" "בטל מעקב LY81" false (some "ly81")
        ⟨[⟨"972", "LY81"⟩, ⟨"972", "LY99"⟩, ⟨"973", "LY81"⟩], 0, 0⟩ =
      (⟨[⟨"972", "LY99"⟩, ⟨"973", "LY81"⟩], 1, 2⟩, 2)) ∧
    (twilioCancelFlow "972" "בטל הכל" false none
        ⟨[⟨"972", "LY81"⟩, ⟨"972", "LY99"⟩, ⟨"973", "LY81"⟩], 0, 0⟩ =
      (⟨[⟨"973", "LY81"⟩], 1, 3⟩, 3)) := by
  exact ⟨by decide, by decide⟩

/-- C2: in a watch/diff pass, a subscription whose freshly computed snapshot
hash equals the stored hash is left untouched — no row write, no
notification; a subscription whose hash differs (including a `NULL` stored
hash on the first poll) gets exactly one notification to its owner plus one
per address of the configured broadcast list, and its stored snapshot, hash
and updated timestamp are set to the new values.  The last two conjuncts
place the per-subscription step inside a whole pass. -/
theorem claim_c2 (env now : String) (row : FwRow) (d : JVal) (rest : JList)
    (t : List (FwRow × Except String FetchResult)) :
    (row.lastHash = some (fwSnapshotHash (fwSnapshotFromAviationstack d)) →
      cronStep (parseNotifyCc env) now row (.ok (.fdata (.arr (.cons d rest)))) =
        (row, [], 0, 0)) ∧
    (row.lastHash ≠ some (fwSnapshotHash (fwSnapshotFromAviationstack d)) →
      cronStep (parseNotifyCc env) now row (.ok (.fdata (.arr (.cons d rest)))) =
        ({ row with
            lastSnapshot := some (fwSnapshotStoreDump (fwSnapshotFromAviationstack d)),
            lastHash := some (fwSnapshotHash (fwSnapshotFromAviationstack d)),
            updatedAt := now },
          row.waid :: (parseNotifyCc env).map ccNormalize, 1, 0) ∧
      (row.waid :: (parseNotifyCc env).map ccNormalize).length =
        1 + (parseNotifyCc env).length) ∧
    (row.lastHash = some (fwSnapshotHash (fwSnapshotFromAviationstack d)) →
      cronFlightwatch (parseNotifyCc env) now
          ((row, .ok (.fdata (.arr (.cons d rest)))) :: t) =
        (row :: (cronFlightwatch (parseNotifyCc env) now t).1,
          (cronFlightwatch (parseNotifyCc env) now t).2.1,
          (cronFlightwatch (parseNotifyCc env) now t).2.2.1,
          (cronFlightwatch (parseNotifyCc env) now t).2.2.2)) ∧
    (row.lastHash ≠ some (fwSnapshotHash (fwSnapshotFromAviationstack d)) →
      cronFlightwatch (parseNotifyCc env) now
          ((row, .ok (.fdata (.arr (.cons d rest)))) :: t) =
        ({ row with
            lastSnapshot := some (fwSnapshotStoreDump (fwSnapshotFromAviationstack d)),
            lastHash := some (fwSnapshotHash (fwSnapshotFromAviationstack d)),
            updatedAt := now } :: (cronFlightwatch (parseNotifyCc env) now t).1,
          (row.waid :: (parseNotifyCc env).map ccNormalize) ++
            (cronFlightwatch (parseNotifyCc env) now t).2.1,
          1 + (cronFlightwatch (parseNotifyCc env) now t).2.2.1,
          (cronFlightwatch (parseNotifyCc env) now t).2.2.2)) := by
  have hchg := cronStep_changed (parseNotifyCc env) now row d rest
  rw [parseNotifyCc_filter env] at hchg
  refine ⟨fun h => cronStep_unchanged _ now row d rest h,
    fun h => ⟨hchg h, by simp [Nat.add_comm]⟩, fun h => ?_, fun h => ?_⟩
  · show (let s := cronStep (parseNotifyCc env) now row (.ok (.fdata (.arr (.cons d rest))));
      let r := cronFlightwatch (parseNotifyCc env) now t;
      (s.1 :: r.1, s.2.1 ++ r.2.1, s.2.2.1 + r.2.2.1, s.2.2.2 + r.2.2.2)) = _
    rw [cronStep_unchanged _ now row d rest h]
    simp
  · show (let s := cronStep (parseNotifyCc env) now row (.ok (.fdata (.arr (.cons d rest))));
      let r := cronFlightwatch (parseNotifyCc env) now t;
      (s.1 :: r.1, s.2.1 ++ r.2.1, s.2.2.1 + r.2.2.1, s.2.2.2 + r.2.2.2)) = _
    rw [hchg h]
    simp

/-- C2 witness: a first poll (stored hash `NULL`) notifies the owner and the
two configured broadcast addresses and stores the new snapshot/hash; a poll
whose hash matches the stored one does nothing. -/
theorem claim_c2_witness :
    (cronStep (parseNotifyCc "alice, whatsapp:+bob") "2025-09-08T10:00:00"
        ⟨"972", "LY81", none, none, none, "t0"⟩
        (.ok (.fdata (.arr (.cons (.obj .nil) .nil)))) =
      (⟨"972", "LY81", none,
          some (fwSnapshotStoreDump (fwSnapshotFromAviationstack (.obj .nil))),
          some (fwSnapshotHash (fwSnapshotFromAviationstack (.obj .nil))),
          "2025-09-08T10:00:00"⟩,
        ["972", "alice", "bob"], 1, 0)) ∧
    (cronStep (parseNotifyCc "alice, whatsapp:+bob") "2025-09-08T10:00:00"
        ⟨"972", "LY81", none, none,
            some (fwSnapshotHash (fwSnapshotFromAviationstack (.obj .nil))), "t0"⟩
        (.ok (.fdata (.arr (.cons (.obj .nil) .nil)))) =
      (⟨"972", "LY81", none, none,
          some (fwSnapshotHash (fwSnapshotFromAviationstack (.obj .nil))), "t0"⟩,
        [], 0, 0)) := by
  constructor
  · have h := ((claim_c2 "alice, whatsapp:+bob" "2025-09-08T10:00:00"
      ⟨"972", "LY81", none, none, none, "t0"⟩ (.obj .nil) .nil []).2.1 (by simp)).1
    rw [h]
    have : (parseNotifyCc "alice, whatsapp:+bob").map ccNormalize = ["alice", "bob"] := by
      decide
    rw [this]
  · exact (claim_c2 "alice, whatsapp:+bob" "2025-09-08T10:00:00"
      ⟨"972", "LY81", none, none,
        some (fwSnapshotHash (fwSnapshotFromAviationstack (.obj .nil))), "t0"⟩
      (.obj .nil) .nil []).1 rfl

/-- C10: the notification decision depends only on the canonically projected
provider fields — two provider records that agree on all seventeen projected
paths produce the same canonical snapshot and the same hash, so a response
differing from the previous one only outside the projection never writes or
notifies. -/
theorem claim_c10 (env now : String) (row : FwRow) (d1 d2 : JVal) (rest : JList)
    (h : fwAgreeProjection d1 d2) :
    fwSnapshotFromAviationstack d1 = fwSnapshotFromAviationstack d2 ∧
    fwSnapshotHash (fwSnapshotFromAviationstack d1) =
      fwSnapshotHash (fwSnapshotFromAviationstack d2) ∧
    (row.lastHash = some (fwSnapshotHash (fwSnapshotFromAviationstack d1)) →
      cronStep (parseNotifyCc env) now row (.ok (.fdata (.arr (.cons d2 rest)))) =
        (row, [], 0, 0)) := by
  have hs := fwSnapshotFromAviationstack_congr d1 d2 h
  refine ⟨hs, congrArg fwSnapshotHash hs, fun hrow => ?_⟩
  exact cronStep_unchanged _ now row d2 rest (by rw [hrow, hs])

/-- C10 witness: two provider records with identical projected fields but
different key insertion order and an extra unprojected field
(`live.updated`): the snapshots and hashes agree and the step is a no-op. -/
theorem claim_c10_witness :
    fwAgreeProjection
        (.obj (.cons "flight_status" (.str "active")
          (.cons "departure" (.obj (.cons "gate" (.str "B4") .nil)) .nil)))
        (.obj (.cons "departure" (.obj (.cons "gate" (.str "B4") .nil))
          (.cons "live" (.obj (.cons "updated" (.str "now") .nil))
            (.cons "flight_status" (.str "active") .nil)))) ∧
    cronStep (parseNotifyCc "") "t1"
        ⟨"972", "LY81", none, none,
          some (fwSnapshotHash (fwSnapshotFromAviationstack
            (.obj (.cons "flight_status" (.str "active")
              (.cons "departure" (.obj (.cons "gate" (.str "B4") .nil)) .nil))))), "t0"⟩
        (.ok (.fdata (.arr (.cons
          (.obj (.cons "departure" (.obj (.cons "gate" (.str "B4") .nil))
            (.cons "live" (.obj (.cons "updated" (.str "now") .nil))
              (.cons "flight_status" (.str "active") .nil)))) .nil)))) =
      (⟨"972", "LY81", none, none,
          some (fwSnapshotHash (fwSnapshotFromAviationstack
            (.obj (.cons "flight_status" (.str "active")
              (.cons "departure" (.obj (.cons "gate" (.str "B4") .nil)) .nil))))), "t0"⟩,
        [], 0, 0) := by
  have hag : fwAgreeProjection
      (.obj (.cons "flight_status" (.str "active")
        (.cons "departure" (.obj (.cons "gate" (.str "B4") .nil)) .nil)))
      (.obj (.cons "departure" (.obj (.cons "gate" (.str "B4") .nil))
        (.cons "live" (.obj (.cons "updated" (.str "now") .nil))
          (.cons "flight_status" (.str "active") .nil)))) :=
    ⟨rfl, rfl, rfl, rfl, rfl, rfl, rfl, rfl, rfl, rfl, rfl, rfl, rfl, rfl, rfl, rfl,
      rfl, rfl⟩
  exact ⟨hag, (claim_c10 "" "t1" _ _ _ .nil hag).2.2 rfl⟩

/-- C4: the snapshot hash is a deterministic function of the canonical
snapshot's field values — provider responses with identical projected field
values (whatever their key insertion order) hash identically — and two
snapshots that differ only in the departure or arrival gate field (a string
or absent, per the data model) have different hashes.  The digest itself is
spec-modelled (see `fwSnapshotHash`); the serialization under it is the
faithful `json.dumps(snap, sort_keys=True)`. -/
theorem claim_c4 (r1 r2 : JVal) (s : FwSnapshot) (g g' : JVal) :
    (fwAgreeProjection r1 r2 →
      fwSnapshotFromAviationstack r1 = fwSnapshotFromAviationstack r2 ∧
      fwSnapshotHash (fwSnapshotFromAviationstack r1) =
        fwSnapshotHash (fwSnapshotFromAviationstack r2)) ∧
    (isGateLike g = true → isGateLike g' = true → g ≠ g' →
      fwSnapshotHash { s with depGate := g } ≠ fwSnapshotHash { s with depGate := g' } ∧
      fwSnapshotHash { s with arrGate := g } ≠ fwSnapshotHash { s with arrGate := g' }) := by
  constructor
  · intro h
    have hs := fwSnapshotFromAviationstack_congr r1 r2 h
    exact ⟨hs, congrArg fwSnapshotHash hs⟩
  · intro hg hg' hne
    exact ⟨fwSnapshotHash_ne_of_depGate_ne s g g' hg hg' hne,
      fwSnapshotHash_ne_of_arrGate_ne s g g' hg hg' hne⟩

/-- C4 witness: two permuted provider records hash identically; changing
only a gate (here `null` vs `"B4"`, and `"B4"` vs `"C2"`) changes the hash
of an otherwise constant snapshot. -/
theorem claim_c4_witness :
    (fwSnapshotHash (fwSnapshotFromAviationstack
        (.obj (.cons "flight_status" (.str "landed")
          (.cons "arrival" (.obj (.cons "gate" (.str "B4")
            (.cons "baggage" (.str "7") .nil))) .nil)))) =
      fwSnapshotHash (fwSnapshotFromAviationstack
        (.obj (.cons "arrival" (.obj (.cons "baggage" (.str "7")
            (.cons "gate" (.str "B4") .nil)))
          (.cons "flight_status" (.str "landed") .nil))))) ∧
    (fwSnapshotHash { fwSnapshotFromAviationstack .null with depGate := JVal.null } ≠
      fwSnapshotHash { fwSnapshotFromAviationstack .null with depGate := JVal.str "B4" }) ∧
    (fwSnapshotHash { fwSnapshotFromAviationstack .null with arrGate := JVal.str "B4" } ≠
      fwSnapshotHash { fwSnapshotFromAviationstack .null with arrGate := JVal.str "C2" }) := by
  refine ⟨?_, ?_, ?_⟩
  · exact ((claim_c4 _ _ (fwSnapshotFromAviationstack .null) .null .null).1
      ⟨rfl, rfl, rfl, rfl, rfl, rfl, rfl, rfl, rfl, rfl, rfl, rfl, rfl, rfl, rfl, rfl,
        rfl, rfl⟩).2
  · exact ((claim_c4 .null .null (fwSnapshotFromAviationstack .null)
      JVal.null (JVal.str "B4")).2 rfl rfl (by decide)).1
  · exact ((claim_c4 .null .null (fwSnapshotFromAviationstack .null)
      (JVal.str "B4") (JVal.str "C2")).2 rfl rfl (by decide)).2

/-- Helper for C8: the final defaulting line of `detect_airports` never
leaves a destination without an origin. -/
theorem detectDefault_origin_of_dest (od : Option String × Option String)
    (h : (if od.2.isSome && od.1.isNone then ((some "TLV" : Option String), od.2)
        else od).1 = none) :
    (if od.2.isSome && od.1.isNone then ((some "TLV" : Option String), od.2)
        else od).2 = none := by
  by_cases hc : (od.2.isSome && od.1.isNone) = true
  · rw [if_pos hc] at h
    cases h
  · rw [if_neg hc] at h ⊢
    rw [Bool.and_eq_true] at hc
    push_neg at hc
    cases hd : od.2 with
    | none => rfl
    | some x =>
      exfalso
      have := hc (by rw [hd]; rfl)
      rw [h] at this
      exact this rfl

/-- C6: the structured AI extractor parses only the substring between the
first opening and last closing brace of the (stripped) model reply; any
completion failure or parse failure yields empty flight/hotel lists without
raising; an unconfigured client yields empty lists; the result depends on
the parser only through its value on that substring; and the backward
compatibility shim wraps singular `flight`/`hotel` dict keys into
single-element arrays. -/
theorem claim_c6 (jparse jparse2 : String → Option JVal) (m : String)
    (c : Option String) (ms f hjm : JMembers) :
    (∀ outcome, aiExtractBookingFromText false jparse outcome = (.arr .nil, .arr .nil)) ∧
    (aiExtractBookingFromText true jparse (.raise m) = (.arr .nil, .arr .nil)) ∧
    (jparse (String.mk (aiSliceSelect (pyStripChars (c.getD "").data))) = none →
      aiExtractBookingFromText true jparse (.reply c) = (.arr .nil, .arr .nil)) ∧
    (jparse (String.mk (aiSliceSelect (pyStripChars (c.getD "").data))) =
        jparse2 (String.mk (aiSliceSelect (pyStripChars (c.getD "").data))) →
      aiExtractBookingFromText true jparse (.reply c) =
        aiExtractBookingFromText true jparse2 (.reply c)) ∧
    (aiSliceSelect (pyStripChars (c.getD "").data) ≠ [] →
      jparse (String.mk (aiSliceSelect (pyStripChars (c.getD "").data))) =
        some (.obj ms) →
      aiExtractBookingFromText true jparse (.reply c) = aiShim ms) ∧
    (ms.hasKey "flights" = false → ms.get "flight" = .obj f →
      (aiShim ms).1 = .arr (.cons (.obj f) .nil)) ∧
    (ms.hasKey "hotels" = false → ms.get "hotel" = .obj hjm →
      (aiShim ms).2 = .arr (.cons (.obj hjm) .nil)) := by
  refine ⟨fun outcome => rfl, rfl, ?_, ?_, ?_, ?_, ?_⟩
  · intro h
    simp only [aiExtractBookingFromText, Bool.not_true, Bool.false_eq_true, if_false]
    by_cases he : (aiSliceSelect (pyStripChars (c.getD "").data)).isEmpty = true
    · rw [if_pos he]; rfl
    · rw [if_neg he, h]
  · intro h
    simp only [aiExtractBookingFromText, Bool.not_true, Bool.false_eq_true, if_false]
    by_cases he : (aiSliceSelect (pyStripChars (c.getD "").data)).isEmpty = true
    · rw [if_pos he, if_pos he]
    · rw [if_neg he, if_neg he, h]
  · intro hne h
    have he : (aiSliceSelect (pyStripChars (c.getD "").data)).isEmpty = false := by
      cases hl : aiSliceSelect (pyStripChars (c.getD "").data) with
      | nil => exact absurd hl hne
      | cons a t => rfl
    simp only [aiExtractBookingFromText, Bool.not_true, Bool.false_eq_true, if_false]
    rw [he]
    simp only [Bool.false_eq_true, if_false]
    rw [h]
  · intro hk hf
    unfold aiShim
    rw [hk]
    simp only [Bool.false_eq_true, if_false]
    rw [hf]
    by_cases hh : (ms.set "flights" (.arr (.cons (.obj f) .nil))).hasKey "hotels" = true
    · rw [if_pos hh]
      rw [JMembers.get_set_self]
      rfl
    · rw [if_neg hh]
      rw [JMembers.get_set_ne _ _ _ _ (by decide),
        JMembers.get_set_self]
      rfl
  · intro hk hh
    unfold aiShim
    by_cases hfk : ms.hasKey "flights" = true
    · rw [if_pos hfk]
      dsimp only
      rw [hk]
      simp only [Bool.false_eq_true, if_false]
      rw [hh, JMembers.get_set_self]
      rfl
    · rw [if_neg hfk]
      dsimp only
      rw [JMembers.hasKey_set_ne _ _ _ _ (by decide), hk]
      simp only [Bool.false_eq_true, if_false]
      rw [JMembers.get_set_self, JMembers.get_set_ne ms "flights" "hotel" _ (by decide), hh]
      rfl

/-- C6 witness: a reply whose braces bound an unparsable region yields empty
lists and the singular-`flight` shim wraps the dict into a one-element
array. -/
theorem claim_c6_witness :
    aiExtractBookingFromText true (fun _ => none)
        (.reply (some " x \x7bbad json\x7d y ")) = (.arr .nil, .arr .nil) ∧
    (aiShim (.cons "flight" (.obj .nil) .nil)).1 =
      .arr (.cons (.obj .nil) .nil) ∧
    (aiShim (.cons "hotel" (.obj .nil) .nil)).2 =
      .arr (.cons (.obj .nil) .nil) := by
  refine ⟨?_, ?_, ?_⟩
  · exact (claim_c6 (fun _ => none) (fun _ => none) "m"
      (some " x \x7bbad json\x7d y ") .nil .nil .nil).2.2.1 rfl
  · exact (claim_c6 (fun _ => none) (fun _ => none) "m" none
      (.cons "flight" (.obj .nil) .nil) .nil .nil).2.2.2.2.2.1 (by decide) rfl
  · exact (claim_c6 (fun _ => none) (fun _ => none) "m" none
      (.cons "hotel" (.obj .nil) .nil) .nil .nil).2.2.2.2.2.2 (by decide) rfl

/-- C7: heuristic date recognition rejects invalid calendar dates (an input
that is just `2025-13-40` yields nothing), normalizes each kept match to
`YYYY-MM-DD`, and returns the distinct results in first-seen order —
`parse_dates` is the first-occurrence de-duplication of the raw validated
match list, its output has no duplicates (each distinct date appears exactly
once), has the same members as the raw list, and each member is a
normalized valid calendar date. -/
theorem claim_c7 (text : String) :
    parseDates "2025-13-40" = [] ∧
    parseDates "2025-09-08 and 2025-09-08" = ["2025-09-08"] ∧
    parseDates text = dedupKeepFirst [] (rawParsedDates text) ∧
    (parseDates text).Nodup ∧
    (∀ ds, ds ∈ parseDates text ↔ ds ∈ rawParsedDates text) ∧
    (∀ ds ∈ parseDates text, ∃ y mo dd, isValidDate y mo dd = true ∧
      ds = pad4 y ++ "-" ++ pad2 mo ++ "-" ++ pad2 dd) ∧
    (∀ ds, (parseDates text).count ds ≤ 1) := by
  refine ⟨by decide, by decide, rfl, dedupKeepFirst_nodup _ _, ?_, ?_, ?_⟩
  · intro ds
    rw [parseDates, dedupKeepFirst_mem]
    simp
  · intro ds hmem
    have hraw : ds ∈ rawParsedDates text :=
      ((dedupKeepFirst_mem ds _ []).mp hmem).1
    unfold rawParsedDates at hraw
    rcases List.mem_append.mp hraw with hm | hm
    · obtain ⟨g, _, hg⟩ := List.mem_filterMap.mp hm
      unfold normalizedDate at hg
      split at hg
      · exact ⟨g.1, g.2.1, g.2.2, by assumption, (Option.some.inj hg).symm⟩
      · cases hg
    · obtain ⟨g, _, hg⟩ := List.mem_filterMap.mp hm
      unfold normalizedDate at hg
      split at hg
      · exact ⟨g.2.2, g.2.1, g.1, by assumption, (Option.some.inj hg).symm⟩
      · cases hg
  · intro ds
    exact List.nodup_iff_count_le_one.mp (dedupKeepFirst_nodup _ _) ds

/-- C7 witness: the general clauses applied at a concrete text with a
repeated date and an invalid one. -/
theorem claim_c7_witness :
    (parseDates "2025-09-08 2025-13-40 08/09/2025").Nodup ∧
    (∀ ds, (parseDates "2025-09-08 2025-13-40 08/09/2025").count ds ≤ 1) ∧
    parseDates "2025-09-08 2025-13-40 08/09/2025" = ["2025-09-08"] := by
  refine ⟨(claim_c7 "2025-09-08 2025-13-40 08/09/2025").2.2.2.1,
    (claim_c7 "2025-09-08 2025-13-40 08/09/2025").2.2.2.2.2.2, by decide⟩

/-- C8: airport recognition — with two or more bare 3-letter uppercase
tokens the first is origin and the second destination; otherwise the static
city table is scanned in table order (case-insensitive substring), the first
match becoming origin and the next distinct match destination; and a
resolved destination never lacks an origin (the home code `TLV` is the
default on the dead branch where a destination could appear alone). -/
theorem claim_c8 (text : String) :
    (2 ≤ (findallIatas text.data.length false text.data).length →
      detectAirports text =
        ((findallIatas text.data.length false text.data).head?,
          (findallIatas text.data.length false text.data).tail.head?)) ∧
    ((findallIatas text.data.length false text.data).length < 2 →
      cityScan (text.data.map pyLowerChar) =
        ((matchedCityCodes (text.data.map pyLowerChar)).head?,
          match matchedCityCodes (text.data.map pyLowerChar) with
          | [] => none
          | o :: rest => rest.find? (fun cde => cde ≠ o)) ∧
      detectAirports text =
        (if (cityScan (text.data.map pyLowerChar)).2.isSome &&
            (cityScan (text.data.map pyLowerChar)).1.isNone then
          (some "TLV", (cityScan (text.data.map pyLowerChar)).2)
        else cityScan (text.data.map pyLowerChar))) ∧
    ((detectAirports text).1 = none → (detectAirports text).2 = none) := by
  refine ⟨?_, ?_, ?_⟩
  · intro h2
    unfold detectAirports
    cases hi : findallIatas text.data.length false text.data with
    | nil => rw [hi] at h2; simp at h2
    | cons a t =>
      cases t with
      | nil => rw [hi] at h2; simp at h2
      | cons b t2 =>
        rw [hi] at h2
        simp only [hi]
        rw [if_pos h2]
        simp
  · intro h2
    constructor
    · exact cityFold_start (text.data.map pyLowerChar) cityMap
    · unfold detectAirports
      dsimp only
      rw [if_neg (Nat.not_le.mpr h2)]
  · intro h
    unfold detectAirports at h ⊢
    exact detectDefault_origin_of_dest _ h

/-- C8 witness: two bare IATA tokens beat the city table; with fewer than
two tokens the table scan resolves origin then a distinct destination. -/
theorem claim_c8_witness :
    detectAirports "TLV-BKK 2025" = (some "TLV", some "BKK") ∧
    detectAirports "Phuket and Krabi" = (some "HKT", some "KBV") ∧
    ((detectAirports "phuket").1 = none → (detectAirports "phuket").2 = none) := by
  refine ⟨?_, ?_, (claim_c8 "phuket").2.2⟩
  · have h := (claim_c8 "TLV-BKK 2025").1 (by decide)
    rw [h]
    decide
  · have h := ((claim_c8 "Phuket and Krabi").2.1 (by decide)).2
    rw [h]
    decide
